import Mathlib

/-!
# patchman-engine: listing / export controllers

A shallow embedding of the controllers in `manager/controllers` (systems list,
systems export, advisory systems export) and of `base.RemoveInvalidChars`.

Conventions of the embedding:

* the texts the controllers handle (header values, parameters, messages) are Lean
  `String`s; `base.RemoveInvalidChars` is embedded on byte sequences, with Go's UTF-8
  decoding and encoding of runes;
* a `*gorm.DB` query under construction is a `Query` value: every builder call
  (`Table`, `Select`, `Joins`, `Where`, `Order`, ...) returns the query extended by
  one clause, appended in call order;
* the database is an explicit `Database` value giving the outcome of every
  executed query;
* a handler is a function from the request context and the database to the
  ordered log (`List Event`) of everything it did: pipeline stages entered,
  queries executed, responses written.
-/

set_option autoImplicit false

namespace Patchman

/-! ## Go strings -/

/-- Whether `sub` is a prefix of `s`, rune by rune. -/
def hasPrefixChars : List Char → List Char → Bool
  | _, [] => true
  | [], _ :: _ => false
  | a :: s, b :: sub => a == b && hasPrefixChars s sub

/-- Whether `sub` occurs in `s` at some position. -/
def containsChars : List Char → List Char → Bool
  | [], sub => hasPrefixChars [] sub
  | a :: s, sub => hasPrefixChars (a :: s) sub || containsChars s sub

/-- Go `strings.Contains(s, substr)`. -/
def Contains (s substr : String) : Bool :=
  containsChars s.data substr.data

/-! ## base/base.go -/

/-- Go `remove`: the rune `0` is mapped to `-1`, every other rune to itself. -/
def remove (r : Int) : Int :=
  if r = 0 then -1 else r

/-- Go `utf8.RuneError`, U+FFFD. -/
def RuneError : Nat := 0xFFFD

/-- Go `utf8.DecodeRuneInString(s)` on the bytes of `s`, a string being the list of its
bytes, each below 256: the first rune and its width in bytes. A byte that does not start a
valid UTF-8 encoding (shortest form, no surrogate, at most U+10FFFF) decodes to `RuneError`
with width 1. -/
def decodeRune : List Nat → Nat × Nat
  | [] => (RuneError, 0)
  | s0 :: rest =>
    if s0 < 0x80 then (s0, 1)
    else if s0 < 0xC2 ∨ 0xF4 < s0 then (RuneError, 1)
    else if s0 < 0xE0 then
      match rest with
      | s1 :: _ =>
        if s1 < 0x80 ∨ 0xBF < s1 then (RuneError, 1)
        else ((s0 % 32) * 64 + s1 % 64, 2)
      | _ => (RuneError, 1)
    else if s0 < 0xF0 then
      match rest with
      | s1 :: s2 :: _ =>
        if s1 < (if s0 = 0xE0 then 0xA0 else 0x80) ∨
            (if s0 = 0xED then 0x9F else 0xBF) < s1 then (RuneError, 1)
        else if s2 < 0x80 ∨ 0xBF < s2 then (RuneError, 1)
        else ((s0 % 16) * 4096 + (s1 % 64) * 64 + s2 % 64, 3)
      | _ => (RuneError, 1)
    else
      match rest with
      | s1 :: s2 :: s3 :: _ =>
        if s1 < (if s0 = 0xF0 then 0x90 else 0x80) ∨
            (if s0 = 0xF4 then 0x8F else 0xBF) < s1 then (RuneError, 1)
        else if s2 < 0x80 ∨ 0xBF < s2 then (RuneError, 1)
        else if s3 < 0x80 ∨ 0xBF < s3 then (RuneError, 1)
        else ((s0 % 8) * 262144 + (s1 % 64) * 4096 + (s2 % 64) * 64 + s3 % 64, 4)
      | _ => (RuneError, 1)

/-- The runes of Go `for _, c := range s`, for at most `fuel` runes: the first rune is
decoded and the loop goes on after its bytes. -/
def rangeRunes : Nat → List Nat → List Nat
  | 0, _ => []
  | _ + 1, [] => []
  | fuel + 1, s0 :: rest =>
    (decodeRune (s0 :: rest)).1 ::
      rangeRunes fuel ((s0 :: rest).drop (decodeRune (s0 :: rest)).2)

/-- The runes of Go `for _, c := range s`: every rune takes at least one byte, so the
length of `s` is fuel enough. -/
def runes (s : List Nat) : List Nat :=
  rangeRunes s.length s

/-- Go `utf8.AppendRune`, the bytes `WriteRune(r)` writes: the UTF-8 encoding of `r`, and
that of `RuneError` for a surrogate or a value above U+10FFFF. -/
def encodeRune (r : Nat) : List Nat :=
  if r < 0x80 then [r]
  else if r < 0x800 then [0xC0 + r / 64, 0x80 + r % 64]
  else if 0x10FFFF < r ∨ (0xD800 ≤ r ∧ r ≤ 0xDFFF) then [0xEF, 0xBF, 0xBD]
  else if r < 0x10000 then [0xE0 + r / 4096, 0x80 + (r / 64) % 64, 0x80 + r % 64]
  else [0xF0 + r / 262144, 0x80 + (r / 4096) % 64, 0x80 + (r / 64) % 64, 0x80 + r % 64]

/-- The UTF-8 encoding of a sequence of runes. -/
def encodeString : List Nat → List Nat
  | [] => []
  | r :: rs => encodeRune r ++ encodeString rs

/-- A Unicode scalar value: a code point up to U+10FFFF that is not a surrogate. A byte
sequence is valid UTF-8 when it is `encodeString` of scalar values. -/
def isScalar (r : Nat) : Prop :=
  r < 0xD800 ∨ (0xDFFF < r ∧ r < 0x110000)

instance (r : Nat) : Decidable (isScalar r) := by
  unfold isScalar
  infer_instance

/-- Go `strings.Map(mapping, s)` on the bytes of `s`: rune by rune as `range` decodes `s`,
a rune whose image is negative is dropped and any other is written as the encoding of its
image. (A valid rune mapped to itself keeps its bytes, which are its encoding; an invalid
byte decodes to `RuneError` and is written as the three bytes of U+FFFD.) -/
def stringsMap (mapping : Int → Int) (s : List Nat) : List Nat :=
  encodeString ((runes s).filterMap fun (c : Nat) =>
    if mapping (c : Int) < 0 then none else some (mapping (c : Int)).toNat)

/-- Go `RemoveInvalidChars`, on the bytes of the string. -/
def RemoveInvalidChars (s : List Nat) : List Nat :=
  stringsMap remove s

/-! ## manager/controllers/systems.go: data model -/

/-- Go `time.Time`, as an instant in Unix seconds. -/
abbrev Time := Int

/-- Go `SystemItemAttributes`; a `*time.Time` field is an optional instant. -/
structure SystemItemAttributes where
  DisplayName : String
  LastEvaluation : Option Time
  LastUpload : Option Time
  RhsaCount : Int
  RhbaCount : Int
  RheaCount : Int
  Enabled : Bool
  Stale : Bool
  deriving DecidableEq, Repr

/-- Go `SystemDBLookup`: the row type scanned by `Find`; the embedded struct is the field
`SystemItemAttributes`. -/
structure SystemDBLookup where
  ID : String
  SystemItemAttributes : SystemItemAttributes
  deriving DecidableEq, Repr

/-- Go `SystemItem`; its field `Type` is written `Type_`. -/
structure SystemItem where
  Attributes : SystemItemAttributes
  ID : String
  Type_ : String
  deriving DecidableEq, Repr

/-- Go `SystemInlineItem`. -/
structure SystemInlineItem where
  ID : String
  SystemItemAttributes : SystemItemAttributes
  deriving DecidableEq, Repr

/-- Go `ListMeta` (spec §3, PageMeta): its declaration is not among the sources. -/
structure ListMeta where
  TotalItems : Int
  Limit : Int
  Offset : Int
  deriving DecidableEq, Repr

/-- One navigation link: the request path with the paging parameters it carries. -/
structure Link where
  path : String
  offset : Int
  limit : Int
  deriving DecidableEq, Repr

/-- Go `Links` (spec §3): its declaration is not among the sources. -/
structure Links where
  First : Option Link
  Last : Option Link
  Next : Option Link
  Previous : Option Link
  deriving DecidableEq, Repr

/-- Go `SystemsResponse`. -/
structure SystemsResponse where
  Data : List SystemItem
  Links : Links
  Meta : ListMeta
  deriving DecidableEq, Repr

/-- Go `FilterData`, as used in the `SystemOpts` literal. -/
structure FilterData where
  Operator : String
  Values : List String
  deriving DecidableEq, Repr

/-- One entry of a field registry (spec §3, FieldDescriptor). -/
structure FieldDescriptor where
  APIName : String
  Expression : String
  Filterable : Bool
  Sortable : Bool
  deriving DecidableEq, Repr

/-- Go `ListOpts`, with the three fields the `SystemOpts` literal sets and the search fields
of the export pipeline (left at their zero value by that literal). -/
structure ListOpts where
  Fields : List FieldDescriptor
  DefaultFilters : List (String × FilterData)
  DefaultSort : String
  SearchFields : List String := []
  deriving DecidableEq, Repr

/-- Go `utils.ErrorResponse`. -/
structure ErrorResponse where
  Error : String
  deriving DecidableEq, Repr

/-! ## The query builder (`*gorm.DB`) -/

/-- A bound argument of a `Where` call. -/
inductive Arg where
  | str (s : String)
  | int (i : Int)
  deriving DecidableEq, Repr

/-- A tag predicate (spec §3, TagPredicate). -/
structure TagPredicate where
  Namespace : String
  Key : String
  Value : Option String
  deriving DecidableEq, Repr

/-- One restriction carried by a query. -/
inductive Clause where
  /-- The call `Where(sql, args...)`. -/
  | cond (sql : String) (args : List Arg)
  /-- The free-text search of pipeline stage 2 on the designated fields. -/
  | search (fields : List String) (term : String)
  /-- A tag predicate of pipeline stage 3, joined on the given key. -/
  | tag (joinKey : String) (t : TagPredicate)
  /-- A merged filter of pipeline stage 4 on a registry expression. -/
  | filter (expr : String) (f : FilterData)
  deriving DecidableEq, Repr

/-- A query under construction: the clauses of each kind, in the order of the calls that
added them. -/
structure Query where
  table : String
  selects : List String
  joins : List String
  wheres : List Clause
  orders : List String
  limit : Option Int
  offset : Option Int
  deriving DecidableEq, Repr

namespace Query

/-- The call `Db.Table(name)` (also `Db.Model(&T{})`, named by its type). -/
def Table (name : String) : Query :=
  { table := name, selects := [], joins := [], wheres := [], orders := [],
    limit := none, offset := none }

/-- The call `Select(exprs)`. -/
def Select (q : Query) (exprs : List String) : Query :=
  { q with selects := q.selects ++ exprs }

/-- The call `Joins(sql)`. -/
def Joins (q : Query) (sql : String) : Query :=
  { q with joins := q.joins ++ [sql] }

/-- The call `Where(sql, args...)`. -/
def Where (q : Query) (sql : String) (args : List Arg) : Query :=
  { q with wheres := q.wheres ++ [Clause.cond sql args] }

/-- Adds one structured restriction. -/
def Restrict (q : Query) (cl : Clause) : Query :=
  { q with wheres := q.wheres ++ [cl] }

/-- The call `Order(key)`: the key is appended to the ORDER BY clause. -/
def Order (q : Query) (key : String) : Query :=
  { q with orders := q.orders ++ [key] }

/-- The call `Limit(n)`. -/
def Limit (q : Query) (n : Int) : Query :=
  { q with limit := some n }

/-- The call `Offset(n)`. -/
def Offset (q : Query) (n : Int) : Query :=
  { q with offset := some n }

end Query

/-- The database: what every executed query yields. `count q` is the pair left by
`q.Count(&n)`: the value stored in `n` and the `Error` field; `find q` is the outcome of
`q.Find(&rows)`: the error, or the scanned rows. -/
structure Database where
  count : Query → Int × Option String
  find : Query → Except String (List SystemDBLookup)

/-! ## The request context (`*gin.Context`) -/

/-- A value stored in the context by a middleware. -/
inductive KeyVal where
  | str (s : String)
  | int (i : Int)
  deriving DecidableEq, Repr

/-- The request as the handlers read it. `KeyAccount` is the value stored under
`middlewares.KeyAccount`, if any; the query-string parameters are those of spec §6. -/
structure Ctx where
  KeyAccount : Option KeyVal
  Params : List (String × String)
  Header : List (String × String)
  search : String
  sort : String
  limit : Option Int
  offset : Option Int
  filters : List (String × FilterData)
  tags : List String
  deriving Repr

namespace Ctx

/-- Go `c.GetString(middlewares.KeyAccount)`: the empty string unless a string is stored. -/
def GetStringAccount (c : Ctx) : String :=
  match c.KeyAccount with
  | some (KeyVal.str s) => s
  | _ => ""

/-- Go `c.GetInt(middlewares.KeyAccount)`: zero unless an integer is stored. -/
def GetIntAccount (c : Ctx) : Int :=
  match c.KeyAccount with
  | some (KeyVal.int i) => i
  | _ => 0

/-- Go `c.Param(name)`: the empty string when the path has no such parameter. -/
def Param (c : Ctx) (name : String) : String :=
  match c.Params.lookup name with
  | some v => v
  | none => ""

/-- Go `c.GetHeader(name)`: the empty string when the header is absent. -/
def GetHeader (c : Ctx) (name : String) : String :=
  match c.Header.lookup name with
  | some v => v
  | none => ""

end Ctx

/-! ## Responses and the log of a handler -/

/-- The value handed to a renderer. -/
inductive Payload where
  | error (e : ErrorResponse)
  | lookups (rows : List SystemDBLookup)
  | inline (rows : List SystemInlineItem)
  | list (r : SystemsResponse)
  deriving DecidableEq, Repr

/-- The renderer that was called: `c.JSON` or `Csv`. -/
inductive Body where
  | json (p : Payload)
  | csv (p : Payload)
  deriving DecidableEq, Repr

/-- One written response. -/
structure Response where
  status : Nat
  body : Body
  deriving DecidableEq, Repr

/-- One step of a handler, as logged. -/
inductive Event where
  /-- A pipeline stage was entered: a query was built or a collaborator was called. -/
  | stage (name : String)
  /-- A count query was executed. -/
  | execCount (q : Query)
  /-- A data query was executed. -/
  | execFind (q : Query)
  /-- A response was written. -/
  | respond (r : Response)
  deriving DecidableEq, Repr

/-- The responses written in a log, in order. -/
def responses : List Event → List Response
  | [] => []
  | Event.respond r :: es => r :: responses es
  | _ :: es => responses es

/-- The data queries executed in a log, in order. -/
def dataQueries : List Event → List Query
  | [] => []
  | Event.execFind q :: es => q :: dataQueries es
  | _ :: es => dataQueries es

/-- The stages entered in a log, in order. -/
def stages : List Event → List String
  | [] => []
  | Event.stage n :: es => n :: stages es
  | _ :: es => stages es

/-! ## Collaborators that are not among the sources -/

/-- Modelled from the spec: the renderer call `c.JSON(status, value)` (§4.7) is the gin
framework's; it writes one response carrying the value in its JSON encoding. -/
def JSON (status : Nat) (p : Payload) : Event :=
  Event.respond { status := status, body := Body.json p }

/-- Modelled from the spec: `Csv(c, status, value)` (§4.7) is absent from the sources; it
writes one response carrying the value in its CSV rendering. -/
def Csv (status : Nat) (p : Payload) : Event :=
  Event.respond { status := status, body := Body.csv p }

/-- Modelled from the spec: `LogAndRespStatusError(c, status, err, msg)` is absent from the
sources; it logs `err` and writes one response with the given status whose body is
`utils.ErrorResponse` with the message (§6, §7). -/
def LogAndRespStatusError (status : Nat) (_err : String) (msg : String) : Event :=
  JSON status (Payload.error { Error := msg })

/-- Modelled from the spec: `LogWarnAndResp(c, status, msg)` is absent from the sources; it
logs a warning and writes one response with the given status and message (§6, §7). -/
def LogWarnAndResp (status : Nat) (msg : String) : Event :=
  JSON status (Payload.error { Error := msg })

/-- Modelled from the spec: `LogAndRespError(c, err, msg)` is absent from the sources; an
underlying query failure is surfaced as HTTP 500 (§6, §7). -/
def LogAndRespError (err : String) (msg : String) : Event :=
  LogAndRespStatusError 500 err msg

/-- Modelled from the spec: `LogAndRespBadRequest(c, err, msg)` is absent from the sources;
a validation failure is surfaced as HTTP 400 (§6, §7). -/
def LogAndRespBadRequest (err : String) (msg : String) : Event :=
  LogAndRespStatusError 400 err msg

/-- Modelled from the spec: `LogAndRespNotFound(c, err, msg)` is absent from the sources; a
missing parent resource is surfaced as HTTP 404 (§6, §7). -/
def LogAndRespNotFound (err : String) (msg : String) : Event :=
  LogAndRespStatusError 404 err msg

/-- Runs a fallible step on every element, left to right, stopping at the first error. -/
def mapExcept {α β : Type} (f : α → Except String β) : List α → Except String (List β)
  | [] => Except.ok []
  | a :: l =>
    match f a with
    | Except.error e => Except.error e
    | Except.ok b =>
      match mapExcept f l with
      | Except.error e => Except.error e
      | Except.ok bs => Except.ok (b :: bs)

/-- The registry entry of an attribute name, if any (spec §3, Registry). -/
def lookupField (registry : List FieldDescriptor) (name : String) : Option FieldDescriptor :=
  registry.find? fun d => d.APIName == name

/-- The filter operators of spec §3 (FilterOperator). -/
def filterOperators : List String :=
  ["eq", "ne", "gt", "ge", "lt", "le", "like", "in"]

/-- Modelled from the spec: the validation of one filter (§4.2): the field must be in the
registry and filterable, the operator one of the enumerated ones, the values present. The
result is the clause of pipeline stage 4 on the registry expression of the field. -/
def checkFilter (registry : List FieldDescriptor) (f : String × FilterData) :
    Except String Clause :=
  match lookupField registry f.1 with
  | none => Except.error ("UnknownFilterField: " ++ f.1)
  | some d =>
    if d.Filterable = false then Except.error ("FieldNotFilterable: " ++ f.1)
    else if f.2.Operator ∉ filterOperators then Except.error ("InvalidOperator: " ++ f.1)
    else if f.2.Values = [] ∨ "" ∈ f.2.Values then Except.error ("InvalidFilterValue: " ++ f.1)
    else Except.ok (Clause.filter d.Expression f.2)

/-- Modelled from the spec: the merge policy of §4.2: the explicit filters, then every
default filter whose field was not explicitly supplied. -/
def mergeFilters (explicit defaults : List (String × FilterData)) : List (String × FilterData) :=
  explicit ++ defaults.filter fun d => explicit.all fun e => e.1 != d.1

/-- Modelled from the spec: `ParseFilters(rawParams, registry, defaultFilters)` (§4.2) is
absent from the sources; it yields the merged filters as validated clauses, or the first
validation error. -/
def ParseFilters (raw : List (String × FilterData)) (registry : List FieldDescriptor)
    (defaults : List (String × FilterData)) : Except String (List Clause) :=
  mapExcept (checkFilter registry) (mergeFilters raw defaults)

/-- Splits a token list at every comma. -/
def splitOnComma : List Char → List (List Char)
  | [] => [[]]
  | c :: cs =>
    match splitOnComma cs with
    | [] => [[c]]
    | t :: ts => if c = ',' then [] :: t :: ts else (c :: t) :: ts

/-- Modelled from the spec: one sort token (§4.3): a leading `-` denotes descending; the
field must be in the registry and sortable. The result is the ORDER BY key. -/
def sortKey (registry : List FieldDescriptor) (token : List Char) : Except String String :=
  let desc := hasPrefixChars token ['-']
  let name := if desc then String.mk token.tail else String.mk token
  match lookupField registry name with
  | none => Except.error ("UnknownSortField: " ++ name)
  | some d =>
    if d.Sortable = false then Except.error ("UnknownSortField: " ++ name)
    else Except.ok (d.Expression ++ (if desc then " DESC" else " ASC"))

/-- Modelled from the spec: `ParseSort(rawSortParam, registry, defaultSort)` (§4.3) is absent
from the sources; an empty parameter falls back to the default sort, parsed identically. -/
def ParseSort (raw : String) (registry : List FieldDescriptor) (defaultSort : String) :
    Except String (List String) :=
  let spec := if raw = "" then defaultSort else raw
  if spec = "" then Except.ok [] else mapExcept (sortKey registry) (splitOnComma spec.data)

/-- Modelled from the spec: the final tie-break key of §4.3, the entity's primary
identifier: the expression of the registry field `id`, ascending. -/
def tieBreakKey (registry : List FieldDescriptor) : List String :=
  match lookupField registry "id" with
  | some d => [d.Expression ++ " ASC"]
  | none => []

/-- Modelled from the spec: the sort of pipeline stage 5 (§4.3): one `Order` call per key of
the sort specification, in its order, then one for the final tie-break key. -/
def ApplySort (tx : Query) (keys : List String) (registry : List FieldDescriptor) : Query :=
  (keys ++ tieBreakKey registry).foldl Query.Order tx

/-- Modelled from the spec: the filters of pipeline stage 4, as conjunctive restrictions. -/
def ApplyFilters (tx : Query) (filters : List Clause) : Query :=
  filters.foldl Query.Restrict tx

/-- Modelled from the spec: `ApplySearch(c, tx, fields...)` (§4.6, stage 2) is absent from
the sources; it adds the search predicate on the designated fields if a search term is
given. -/
def ApplySearch (c : Ctx) (tx : Query) (fields : List String) : Query :=
  if c.search = "" ∨ fields = [] then tx else tx.Restrict (Clause.search fields c.search)

/-- Modelled from the spec: the default page size, a per-endpoint default of §6. -/
def DefaultLimit : Int := 20

/-- Modelled from the spec: the validation of a PageRequest (§4.5): `Offset < 0` or
`Limit < -1` is an error. The result is the pair of limit and offset. -/
def ParsePage (c : Ctx) : Except String (Int × Int) :=
  let limit := c.limit.getD DefaultLimit
  let offset := c.offset.getD 0
  if offset < 0 ∨ limit < -1 then Except.error "InvalidPagination" else Except.ok (limit, offset)

/-- Modelled from the spec: `Paginate` (§4.5): the query bounded to `[Offset, Offset+Limit)`;
`Limit = -1` disables bounding. -/
def Paginate (tx : Query) (limit offset : Int) : Query :=
  if limit = -1 then tx else (tx.Limit limit).Offset offset

/-- Modelled from the spec: `BuildMeta` (§4.5). -/
def BuildMeta (total limit offset : Int) : ListMeta :=
  { TotalItems := total, Limit := limit, Offset := offset }

/-- An offset clamped to `[0, total)`. -/
def clampOffset (total x : Int) : Int :=
  max 0 (min x (total - 1))

/-- Modelled from the spec: `BuildLinks` (§4.5): next is present iff
`Offset+Limit < TotalItems`, previous iff `Offset > 0`, first points to offset 0, last to the
offset of the final page; the offsets are clamped to `[0, TotalItems)`. -/
def BuildLinks (path : String) (m : ListMeta) : Links :=
  let link (x : Int) : Link :=
    { path := path, offset := clampOffset m.TotalItems x, limit := m.Limit }
  let last : Int := if 0 < m.Limit then ((m.TotalItems - 1) / m.Limit) * m.Limit else 0
  { First := some (link 0)
    Last := some (link last)
    Next := if m.Offset + m.Limit < m.TotalItems then some (link (m.Offset + m.Limit)) else none
    Previous := if 0 < m.Offset then some (link (m.Offset - m.Limit)) else none }

/-- Modelled from the spec: `ListCommon(tx, c, path, opts)` (§4.6, list mode) is absent from
the sources. On the caller's base query it validates filters, sort and paging (an error is
answered with 400 before any query runs), applies the merged filters, counts the filtered
rows (a failure is answered with 500), applies the sort and the paging, and returns the
bounded query with the meta and the links. An error response is written by `ListCommon`
itself; the result is then `none`. -/
def ListCommon (db : Database) (tx : Query) (c : Ctx) (path : String) (opts : ListOpts) :
    List Event × Option (Query × ListMeta × Links) :=
  match ParseFilters c.filters opts.Fields opts.DefaultFilters with
  | Except.error e => ([LogAndRespBadRequest e e], none)
  | Except.ok filters =>
    match ParseSort c.sort opts.Fields opts.DefaultSort with
    | Except.error e => ([LogAndRespBadRequest e e], none)
    | Except.ok keys =>
      match ParsePage c with
      | Except.error e => ([LogAndRespBadRequest e e], none)
      | Except.ok (limit, offset) =>
        let filtered := ApplyFilters tx filters
        match db.count filtered with
        | (_, some e) => ([Event.execCount filtered, LogAndRespError e "database error"], none)
        | (total, none) =>
          let m := BuildMeta total limit offset
          ([Event.execCount filtered],
            some (Paginate (ApplySort filtered keys opts.Fields) limit offset, m,
              BuildLinks path m))

/-- Modelled from the spec: `ExportListCommon(tx, c, opts)` (§4.6, export mode) is absent
from the sources. It validates filters and sort (an error is answered with 400), applies
the search, the merged filters and the sort, and skips count and paging. An error response
is written by `ExportListCommon` itself; the result is then `none`. -/
def ExportListCommon (tx : Query) (c : Ctx) (opts : ListOpts) : List Event × Option Query :=
  match ParseFilters c.filters opts.Fields opts.DefaultFilters with
  | Except.error e => ([LogAndRespBadRequest e e], none)
  | Except.ok filters =>
    match ParseSort c.sort opts.Fields opts.DefaultSort with
    | Except.error e => ([LogAndRespBadRequest e e], none)
    | Except.ok keys =>
      ([], some (ApplySort (ApplyFilters (ApplySearch c tx opts.SearchFields) filters) keys
        opts.Fields))

/-- Splits a token at the first occurrence of a separator. -/
def splitAtChar (sep : Char) : List Char → Option (List Char × List Char)
  | [] => none
  | c :: cs =>
    if c = sep then some ([], cs)
    else
      match splitAtChar sep cs with
      | none => none
      | some (a, b) => some (c :: a, b)

/-- Modelled from the spec: one tag token (§4.4), `namespace/key=value` or `namespace/key`;
a token without namespace or key is malformed. -/
def ParseTag (raw : String) : Except String TagPredicate :=
  match splitAtChar '/' raw.data with
  | none => Except.error ("InvalidTagFormat: " ++ raw)
  | some (ns, rest) =>
    let kv : List Char × Option (List Char) :=
      match splitAtChar '=' rest with
      | none => (rest, none)
      | some (k, v) => (k, some v)
    if ns = [] ∨ kv.1 = [] then Except.error ("InvalidTagFormat: " ++ raw)
    else Except.ok { Namespace := String.mk ns, Key := String.mk kv.1,
                     Value := kv.2.map String.mk }

/-- Modelled from the spec: `ParseTagsFilters(c)` (§4.4, ParseTags) is absent from the
sources; a malformed token is answered with 400 by the function itself and short-circuits
the request. -/
def ParseTagsFilters (c : Ctx) : List Event × Option (List TagPredicate) :=
  match mapExcept ParseTag c.tags with
  | Except.error e => ([LogAndRespBadRequest e e], none)
  | Except.ok tags => ([], some tags)

/-- Modelled from the spec: `ApplyTagsFilter(filters, tx, joinKey)` (§4.4) is absent from the
sources; one restriction per predicate, joined on the caller's key. -/
def ApplyTagsFilter (filters : List TagPredicate) (tx : Query) (joinKey : String) : Query :=
  filters.foldl (fun q t => q.Restrict (Clause.tag joinKey t)) tx

/-! ## manager/controllers/systems.go: handlers -/

/-- Modelled from the spec: `database.MustGetQueryAttrs(&SystemDBLookup{})` is absent from
the sources; the registry (§4.1) has one entry per field of `SystemDBLookup`, whose
expression is the field's `query` tag, filterable and sortable as the handler's parameter
annotations declare. -/
def SystemsFields : List FieldDescriptor :=
  [ { APIName := "id", Expression := "system_platform.inventory_id",
      Filterable := true, Sortable := true },
    { APIName := "display_name", Expression := "system_platform.display_name",
      Filterable := true, Sortable := true },
    { APIName := "last_evaluation", Expression := "system_platform.last_evaluation",
      Filterable := true, Sortable := true },
    { APIName := "last_upload", Expression := "system_platform.last_upload",
      Filterable := true, Sortable := true },
    { APIName := "rhsa_count", Expression := "system_platform.advisory_sec_count_cache",
      Filterable := true, Sortable := true },
    { APIName := "rhba_count", Expression := "system_platform.advisory_bug_count_cache",
      Filterable := true, Sortable := true },
    { APIName := "rhea_count", Expression := "system_platform.advisory_enh_count_cache",
      Filterable := true, Sortable := true },
    { APIName := "enabled", Expression := "(NOT system_platform.opt_out)",
      Filterable := true, Sortable := true },
    { APIName := "stale", Expression := "system_platform.stale",
      Filterable := true, Sortable := true } ]

/-- Modelled from the spec: `database.MustGetSelect(&SystemDBLookup{})` is absent from the
sources; the projection expression list of the registry (§4.1). -/
def SystemsSelect : List String :=
  SystemsFields.map fun d => d.Expression

/-- Go `SystemOpts`. -/
def SystemOpts : ListOpts :=
  { Fields := SystemsFields
    DefaultFilters := [("stale", { Operator := "eq", Values := ["false"] })]
    DefaultSort := "-last_upload" }

/-- Go `querySystems`. -/
def querySystems (account : String) : Query :=
  (((Query.Table "system_platform").Select SystemsSelect).Joins
      "inner join rh_account ra on system_platform.rh_account_id = ra.id").Where
    "ra.name = ?" [Arg.str account]

/-- Go `buildData`. -/
def buildData (systems : List SystemDBLookup) : List SystemItem :=
  systems.map fun system =>
    { Attributes := system.SystemItemAttributes, ID := system.ID, Type_ := "system" }

/-- Go conversion `SystemInlineItem(v)` of a `SystemDBLookup`. -/
def toInlineItem (v : SystemDBLookup) : SystemInlineItem :=
  { ID := v.ID, SystemItemAttributes := v.SystemItemAttributes }

/-- Go `SystemsListHandler`. -/
def SystemsListHandler (db : Database) (c : Ctx) : List Event :=
  let account := c.GetStringAccount
  let query := querySystems account
  let query := ApplySearch c query ["system_platform.display_name"]
  let pre := [Event.stage "querySystems", Event.stage "ApplySearch", Event.stage "ListCommon"]
  match ListCommon db query c "/api/patch/v1/systems" SystemOpts with
  | (ev, none) => pre ++ ev
  | (ev, some (query, m, links)) =>
    match db.find query with
    | Except.error err => pre ++ ev ++ [Event.execFind query, LogAndRespError err "db error"]
    | Except.ok systems =>
      let data := buildData systems
      let resp : SystemsResponse := { Data := data, Links := links, Meta := m }
      pre ++ ev ++ [Event.execFind query, Event.stage "buildData",
        JSON 200 (Payload.list resp)]

/-- Go `SystemsExportHandler`. -/
def SystemsExportHandler (db : Database) (c : Ctx) : List Event :=
  let account := c.GetStringAccount
  let query := querySystems account
  let query := query.Order "id"
  let pre := [Event.stage "querySystems", Event.execFind query]
  match db.find query with
  | Except.error err => pre ++ [LogAndRespError err "db error"]
  | Except.ok systems =>
    let data := systems.map toInlineItem
    let accept := c.GetHeader "Accept"
    if Contains accept "application/json" then
      pre ++ [JSON 200 (Payload.inline data)]
    else if Contains accept "text/csv" then
      pre ++ [Csv 200 (Payload.inline data)]
    else
      pre ++ [LogAndRespStatusError 415 "Invalid content type"
        "This endpoint provides only application/json and text/csv"]

/-! ## manager/controllers/advisory_systems_export.go -/

/-- The functions and values used by `AdvisorySystemsExportHandler` that are neither among
the sources nor described by the specification. -/
structure AdvisoryDeps where
  /-- Go `buildAdvisorySystemsQuery(account, advisoryName)`. -/
  buildAdvisorySystemsQuery : Int → String → Query
  /-- Go `AdvisorySystemOpts`. -/
  AdvisorySystemOpts : ListOpts
  /-- Go `parseAndFillTags(&systems)`, as the list it leaves in `systems`. -/
  parseAndFillTags : List SystemDBLookup → List SystemDBLookup

/-- The existence query of `AdvisorySystemsExportHandler`:
`database.Db.Model(&models.AdvisoryMetadata{}).Where("name = ? ", advisoryName)`. -/
def advisoryExistsQuery (advisoryName : String) : Query :=
  (Query.Table "models.AdvisoryMetadata").Where "name = ? " [Arg.str advisoryName]

/-- The message of the 415 answer of `AdvisorySystemsExportHandler`:
`fmt.Sprintf("Invalid content type '%s', use 'application/json' or 'text/csv'", accept)`. -/
def invalidContentTypeMsg (accept : String) : String :=
  "Invalid content type '" ++ accept ++ "', use 'application/json' or 'text/csv'"

/-- Go `AdvisorySystemsExportHandler`. -/
def AdvisorySystemsExportHandler (deps : AdvisoryDeps) (db : Database) (c : Ctx) :
    List Event :=
  let account := c.GetIntAccount
  let advisoryName := c.Param "advisory_id"
  if advisoryName = "" then
    [JSON 400 (Payload.error { Error := "advisory_id param not found" })]
  else
    let res := db.count (advisoryExistsQuery advisoryName)
    let ev1 : List Event :=
      Event.execCount (advisoryExistsQuery advisoryName) ::
        (match res.2 with
         | some err => [LogAndRespError err "database error"]
         | none => [])
    if res.1 = 0 then
      ev1 ++ [LogAndRespNotFound "advisory not found" "Advisory not found"]
    else
      let query := deps.buildAdvisorySystemsQuery account advisoryName
      let ev2 := ev1 ++ [Event.stage "buildAdvisorySystemsQuery", Event.stage "ParseTagsFilters"]
      match ParseTagsFilters c with
      | (evt, none) => ev2 ++ evt
      | (evt, some filters) =>
        let query := ApplyTagsFilter filters query "sp.inventory_id"
        let query := query.Order "sp.id"
        let ev3 := ev2 ++ evt ++ [Event.stage "ApplyTagsFilter", Event.stage "ExportListCommon"]
        match ExportListCommon query c deps.AdvisorySystemOpts with
        | (eve, none) => ev3 ++ eve
        | (eve, some query) =>
          let ev4 := ev3 ++ eve ++ [Event.execFind query]
          match db.find query with
          | Except.error err => ev4 ++ [LogAndRespError err "db error"]
          | Except.ok systems =>
            let accept := c.GetHeader "Accept"
            let systems := deps.parseAndFillTags systems
            let ev5 := ev4 ++ [Event.stage "parseAndFillTags"]
            if Contains accept "application/json" then
              ev5 ++ [JSON 200 (Payload.lookups systems)]
            else if Contains accept "text/csv" then
              ev5 ++ [Csv 200 (Payload.lookups systems)]
            else
              ev5 ++ [LogWarnAndResp 415 (invalidContentTypeMsg accept)]

/-! ## Properties of queries -/

/-- The queries executed in a log, count and data queries alike, in order. -/
def executed : List Event → List Query
  | [] => []
  | Event.execCount q :: es => q :: executed es
  | Event.execFind q :: es => q :: executed es
  | _ :: es => executed es

/-- A query is derived from a base query when it has the same table, projection and joins
and keeps every restriction of the base, in front of those added later. -/
def derivedFrom (base q : Query) : Prop :=
  q.table = base.table ∧ q.selects = base.selects ∧ q.joins = base.joins ∧
    base.wheres <+: q.wheres

/-- A query is scoped to an account when it inner-joins the `rh_account` row of the system
and carries the predicate `ra.name = account`. -/
def tenantScoped (account : String) (q : Query) : Prop :=
  "inner join rh_account ra on system_platform.rh_account_id = ra.id" ∈ q.joins ∧
    Clause.cond "ra.name = ?" [Arg.str account] ∈ q.wheres

/-- A query with the paging removed. -/
def withoutPaging (q : Query) : Query :=
  { q with limit := none, offset := none }

/-! ## Sample inputs -/

/-- A fetched system row. -/
def sampleSystem : SystemDBLookup :=
  { ID := "00000000-0000-0000-0000-000000000001"
    SystemItemAttributes :=
      { DisplayName := "host-1", LastEvaluation := none, LastUpload := some 1700000000,
        RhsaCount := 2, RhbaCount := 1, RheaCount := 0, Enabled := true, Stale := false } }

/-- A second fetched system row, stale. -/
def sampleStaleSystem : SystemDBLookup :=
  { ID := "00000000-0000-0000-0000-000000000002"
    SystemItemAttributes :=
      { DisplayName := "host-2", LastEvaluation := none, LastUpload := none,
        RhsaCount := 0, RhbaCount := 0, RheaCount := 0, Enabled := true, Stale := true } }

/-- Sample collaborators of the advisory systems export: a base query on the systems of an
advisory, the systems registry with the default sort of the systems list, no tag filling. -/
def sampleDeps : AdvisoryDeps :=
  { buildAdvisorySystemsQuery := fun account advisoryName =>
      (Query.Table "system_platform sp").Where "sp.rh_account_id = ? AND am.name = ?"
        [Arg.int account, Arg.str advisoryName]
    AdvisorySystemOpts :=
      { Fields := SystemsFields, DefaultFilters := [], DefaultSort := "-last_upload" }
    parseAndFillTags := fun systems => systems }

/-- The data query of the advisory systems export for `sampleDeps`, account 0, the advisory
`RHSA-2024:0001` and a request without parameters. -/
def sampleExportQuery : Query :=
  (((sampleDeps.buildAdvisorySystemsQuery 0 "RHSA-2024:0001").Order "sp.id").Order
    "system_platform.last_upload DESC").Order "system_platform.inventory_id ASC"

/-- A database in which every count yields `n` and every data query the given rows. -/
def sampleDb (n : Int) (rows : List SystemDBLookup) : Database :=
  { count := fun _ => (n, none), find := fun _ => Except.ok rows }

/-- A database whose count queries fail, leaving the counter at zero. -/
def failingCountDb : Database :=
  { count := fun _ => (0, some "connection refused"), find := fun _ => Except.ok [] }

/-- A database whose data queries fail. -/
def failingFindDb : Database :=
  { count := fun _ => (1, none), find := fun _ => Except.error "connection refused" }

/-- A request without query-string parameters, with the given advisory and Accept header. -/
def sampleCtx (advisory accept : String) : Ctx :=
  { KeyAccount := some (KeyVal.str "acme"), Params := [("advisory_id", advisory)],
    Header := [("Accept", accept)], search := "", sort := "", limit := none, offset := none,
    filters := [], tags := [] }

/-- A request for the systems of `RHSA-2024:0001` sorted by display name. -/
def sortedCtx : Ctx :=
  { sampleCtx "RHSA-2024:0001" "application/json" with sort := "display_name" }

/-- A database holding a fresh and a stale system of the account: a data query carrying
the filter `stale = false` yields the fresh system only, any other both. -/
def staleAwareDb : Database :=
  { count := fun q =>
      if Clause.filter "system_platform.stale" { Operator := "eq", Values := ["false"] }
          ∈ q.wheres then (1, none) else (2, none)
    find := fun q =>
      if Clause.filter "system_platform.stale" { Operator := "eq", Values := ["false"] }
          ∈ q.wheres then Except.ok [sampleSystem]
      else Except.ok [sampleSystem, sampleStaleSystem] }

/-! ## manager/controllers/template_systems_update.go: errors and outcomes -/

/-- A Go `error` value that is not nil: a plain message (`errors.New`, `fmt.Errorf`, a
database error) or the result of `errors.Join`, which keeps the joined errors in order. -/
inductive GoError where
  | msg (s : String)
  | join (errs : List GoError)

/-- The messages joined with a newline between two consecutive ones. -/
def joinLines : List String → String
  | [] => ""
  | [a] => a
  | a :: b :: rest => a ++ "\n" ++ joinLines (b :: rest)

mutual

/-- Go `err.Error()`: the message, or for a joined error the messages of its parts separated
by newlines. -/
def GoError.Error : GoError → String
  | GoError.msg s => s
  | GoError.join errs => joinLines (GoError.ErrorList errs)

/-- The `Error()` of every error of a list. -/
def GoError.ErrorList : List GoError → List String
  | [] => []
  | e :: es => e.Error :: GoError.ErrorList es

end

/-- Go `errors.Join(errs...)`: nil errors are discarded; the result is nil if every argument
is nil, else the joined error of the others in order. -/
def Join (errs : List (Option GoError)) : Option GoError :=
  match errs.filterMap id with
  | [] => none
  | es => some (GoError.join es)

/-- How a Go function call ends: by returning a value, or by a run-time panic. -/
inductive Run (α : Type) where
  | done (a : α)
  | panic (reason : String)

/-- Go `models.Template`, with the fields the controller reads. -/
structure Template where
  ID : Int
  Arch : String
  Version : String
  deriving DecidableEq, Repr

/-- One row of `sysArchVersions` in `templateArchVersionMatch`. -/
structure SysArchVersion where
  InventoryID : String
  Arch : String
  Version : String
  deriving DecidableEq, Repr

/-- Go `fmt.Errorf("system uuid: %s, arch: %s, version: %s", sys.InventoryID, sys.Arch,
sys.Version)`, as its message. -/
def systemErrMsg (sys : SysArchVersion) : String :=
  "system uuid: " ++ sys.InventoryID ++ ", arch: " ++ sys.Arch ++ ", version: " ++ sys.Version

/-- Go `fmt.Errorf("template arch: %s, version: %s", template.Arch, template.Version)`, as its
message. -/
def templateErrMsg (template : Template) : String :=
  "template arch: " ++ template.Arch ++ ", version: " ++ template.Version

/-- The loop of `templateArchVersionMatch` over the remaining rows, from the error
accumulated so far. Reading `template.Version` through a nil `template` panics. -/
def archVersionLoop (template : Option Template) :
    List SysArchVersion → Option GoError → Run (Option GoError)
  | [], err => Run.done err
  | sys :: rest, err =>
    match template with
    | none => Run.panic "invalid memory address or nil pointer dereference"
    | some t =>
      if sys.Version ≠ t.Version ∨ sys.Arch ≠ t.Arch then
        archVersionLoop template rest (Join [err, some (GoError.msg (systemErrMsg sys))])
      else archVersionLoop template rest err

/-! ## manager/controllers/template_systems_update.go: the handler -/

/-- The collaborators of the template controller that are not among the sources, and the
outcome of every database operation it runs. -/
structure TemplateEnv where
  /-- Go `config.EnableSatelliteFunctionality`. -/
  EnableSatelliteFunctionality : Bool
  /-- Go constant `InvalidInventoryIDsErr`. -/
  InvalidInventoryIDsErr : String
  /-- Go `getTemplate(c, db, account, templateUUID)`: the template pointer, or the response
  the function wrote together with its error. -/
  getTemplate : Int → String → Except Response (Option Template)
  /-- Go `checkInventoryIDs(db, accountID, inventoryIDs, groups)`: the missing IDs, the
  satellite managed IDs and the error. -/
  checkInventoryIDs : Int → List String → List (String × String) →
    List String × List String × Option GoError
  /-- The systems query of `templateArchVersionMatch` for an account, groups and IDs. -/
  findSysArchVersions : Int → List (String × String) → List String →
    Except String (List SysArchVersion)
  /-- The update of `template_id` for an account, IDs and template ID (`none` is NULL): the
  `Error` and the `RowsAffected` it leaves in `tx`. -/
  update : Int → List String → Option Int → Option GoError × Int
  /-- The `Error` left by `tx.Commit()`. -/
  commit : Option GoError

/-- The request as `TemplateSystemsUpdateHandler` reads it: the account
(`c.GetInt(utils.KeyAccount)`), the path parameter `template_id`, the inventory groups
(`c.GetStringMapString(utils.KeyInventoryGroups)`) and the outcome of `c.ShouldBindJSON`:
the error, or the `Systems` of the bound request. -/
structure TemplateRequest where
  account : Int
  template_id : String
  groups : List (String × String)
  body : Except String (List String)

/-- Go `templateArchVersionMatch`. The systems query
`database.Systems(db, acc, groups).Select(...).Where("ih.id in (?)", inventoryIDs).Find(...)`
yields the database error or the scanned rows. -/
def templateArchVersionMatch (env : TemplateEnv) (inventoryIDs : List String)
    (template : Option Template) (acc : Int) (groups : List (String × String)) :
    Run (Option GoError) :=
  match env.findSysArchVersions acc groups inventoryIDs with
  | Except.error e => Run.done (some (GoError.msg e))
  | Except.ok sysArchVersions =>
    match archVersionLoop template sysArchVersions none with
    | Run.panic r => Run.panic r
    | Run.done none => Run.done none
    | Run.done (some err) =>
      match template with
      | none => Run.panic "invalid memory address or nil pointer dereference"
      | some t => Run.done (Join [some (GoError.msg (templateErrMsg t)), some err])

/-- One step of the template controller, as logged. -/
inductive TxEvent where
  /-- The call `db.Begin()`. -/
  | begin
  /-- A response was written. -/
  | respond (r : Response)
  /-- The update of `template_id` was executed on the rows with the given account and
  inventory IDs; `none` is NULL. -/
  | update (accountID : Int) (inventoryIDs : List String) (templateID : Option Int)
  /-- The call `tx.Commit()`. -/
  | commit
  /-- The deferred call `tx.Rollback()`. -/
  | rollback
  /-- The call `c.Status(code)`. -/
  | status (code : Nat)
  deriving DecidableEq, Repr

/-- The step of the template controller that writes the response of a responder. -/
def txRespond (e : Event) : List TxEvent :=
  (responses [e]).map TxEvent.respond

/-- The responses written in a log of the template controller, in order. -/
def txResponses : List TxEvent → List Response
  | [] => []
  | TxEvent.respond r :: es => r :: txResponses es
  | _ :: es => txResponses es

/-- Go `fmt.Sprintf("%v", ids)` of a `[]string`. -/
def fmtStrings (ids : List String) : String :=
  "[" ++ " ".intercalate ids ++ "]"

/-- The text of a Go error in a log line: `<nil>` for nil. -/
def errText : Option GoError → String
  | none => "<nil>"
  | some e => e.Error

/-- Go `assignTemplateSystems`: the log of its steps, and how the call ends: the returned
error (`none` is nil) or a panic. The deferred `tx.Rollback()` runs at every exit after
`db.Begin()`, a panic included. -/
def assignTemplateSystems (env : TemplateEnv) (accountID : Int) (template : Option Template)
    (inventoryIDs : List String) (groups : List (String × String)) :
    List TxEvent × Run (Option GoError) :=
  if inventoryIDs.length = 0 then
    (txRespond (LogAndRespBadRequest env.InvalidInventoryIDsErr env.InvalidInventoryIDsErr),
      Run.done (some (GoError.msg env.InvalidInventoryIDsErr)))
  else
    let checked := env.checkInventoryIDs accountID inventoryIDs groups
    let missingIDs := checked.1
    let satelliteManagedIDs := checked.2.1
    let err := checked.2.2
    match err with
    | some e =>
      (TxEvent.begin :: txRespond (LogAndRespError e.Error "Database error") ++
        [TxEvent.rollback], Run.done (some e))
    | none =>
      if env.EnableSatelliteFunctionality = true ∧ satelliteManagedIDs.length > 0 then
        let msg := "Template can not contain satellite managed systems: " ++
          fmtStrings satelliteManagedIDs
        (TxEvent.begin :: txRespond (LogAndRespBadRequest msg msg) ++ [TxEvent.rollback],
          Run.done err)
      else if missingIDs.length > 0 then
        let msg := "Unknown inventory_ids: " ++ fmtStrings missingIDs
        (TxEvent.begin :: txRespond (LogAndRespNotFound msg msg) ++ [TxEvent.rollback],
          Run.done err)
      else
        match templateArchVersionMatch env inventoryIDs template accountID groups with
        | Run.panic r => ([TxEvent.begin, TxEvent.rollback], Run.panic r)
        | Run.done (some e) =>
          let msg := "Incompatible template and system version or architecture: " ++ e.Error
          (TxEvent.begin :: txRespond (LogAndRespBadRequest e.Error msg) ++
            [TxEvent.rollback], Run.done (some e))
        | Run.done none =>
          let templateID : Option Int :=
            match template with
            | some t => if t.ID ≠ 0 then some t.ID else none
            | none => none
          let updated := env.update accountID inventoryIDs templateID
          let pre := [TxEvent.begin, TxEvent.update accountID inventoryIDs templateID]
          match updated.1 with
          | some e =>
            (pre ++ txRespond (LogAndRespError (errText err) "Database error") ++
              [TxEvent.rollback], Run.done (some e))
          | none =>
            if updated.2 ≠ (inventoryIDs.length : Int) then
              (pre ++ txRespond
                  (LogAndRespBadRequest env.InvalidInventoryIDsErr env.InvalidInventoryIDsErr) ++
                [TxEvent.rollback], Run.done (some (GoError.msg env.InvalidInventoryIDsErr)))
            else
              match env.commit with
              | some e =>
                (pre ++ TxEvent.commit :: txRespond (LogAndRespError e.Error "Database error") ++
                  [TxEvent.rollback], Run.done (some e))
              | none => (pre ++ [TxEvent.commit, TxEvent.rollback], Run.done none)

/-- Go `TemplateSystemsUpdateHandler`: the log of its steps, and how the call ends. -/
def TemplateSystemsUpdateHandler (env : TemplateEnv) (c : TemplateRequest) :
    List TxEvent × Run Unit :=
  match c.body with
  | Except.error e =>
    (txRespond (LogAndRespBadRequest e ("Invalid template update request " ++ e)),
      Run.done ())
  | Except.ok systems =>
    match env.getTemplate c.account c.template_id with
    | Except.error r => ([TxEvent.respond r], Run.done ())
    | Except.ok template =>
      match assignTemplateSystems env c.account template systems c.groups with
      | (log, Run.panic r) => (log, Run.panic r)
      | (log, Run.done (some _)) => (log, Run.done ())
      | (log, Run.done none) => (log ++ [TxEvent.status 200], Run.done ())

/-! ## Sample inputs of the template controller -/

/-- A template for RHEL 8 on x86_64. -/
def sampleTemplate : Template :=
  { ID := 5, Arch := "x86_64", Version := "8" }

/-- A system matching `sampleTemplate`. -/
def sampleSysRow : SysArchVersion :=
  { InventoryID := "id-1", Arch := "x86_64", Version := "8" }

/-- Three systems: one matching `sampleTemplate`, one of another architecture, one of
another version. -/
def sampleSysRows : List SysArchVersion :=
  [ sampleSysRow,
    { InventoryID := "id-2", Arch := "aarch64", Version := "8" },
    { InventoryID := "id-3", Arch := "x86_64", Version := "9" } ]

/-- An environment with satellite functionality enabled in which `checkInventoryIDs`
succeeds and reports the given missing and satellite managed IDs, the systems query yields
the given rows, the update affects one row per requested ID and the commit succeeds. -/
def sampleTemplateEnv (missing satellite : List String) (rows : List SysArchVersion) :
    TemplateEnv :=
  { EnableSatelliteFunctionality := true
    InvalidInventoryIDsErr := "invalid list of inventory IDs"
    getTemplate := fun _ _ => Except.ok (some sampleTemplate)
    checkInventoryIDs := fun _ _ _ => (missing, satellite, none)
    findSysArchVersions := fun _ _ _ => Except.ok rows
    update := fun _ ids _ => (none, ids.length)
    commit := none }

/-- A request of account 7 on the template `t-1` with the given systems in its body. -/
def sampleTemplateRequest (systems : List String) : TemplateRequest :=
  { account := 7, template_id := "t-1", groups := [], body := Except.ok systems }

/-! ## Helper lemmas on strings -/

theorem hasPrefixChars_iff (s sub : List Char) :
    hasPrefixChars s sub = true ↔ sub <+: s := by
  induction s generalizing sub with
  | nil =>
    cases sub with
    | nil => simp [hasPrefixChars]
    | cons b sub => simp [hasPrefixChars]
  | cons a s ih =>
    cases sub with
    | nil => simp [hasPrefixChars]
    | cons b sub =>
      simp only [hasPrefixChars, Bool.and_eq_true, beq_iff_eq, ih, List.cons_prefix_cons]
      constructor
      · rintro ⟨h1, h2⟩; exact ⟨h1.symm, h2⟩
      · rintro ⟨h1, h2⟩; exact ⟨h1.symm, h2⟩

theorem containsChars_iff (s sub : List Char) :
    containsChars s sub = true ↔ sub <:+: s := by
  induction s with
  | nil =>
    simp only [containsChars, hasPrefixChars_iff]
    constructor
    · intro h; exact h.isInfix
    · intro h
      have := List.eq_nil_of_infix_nil h
      subst this; exact List.prefix_rfl
  | cons a s ih =>
    simp only [containsChars, Bool.or_eq_true, hasPrefixChars_iff, ih]
    rw [List.infix_cons_iff]

theorem Contains_iff (s substr : String) :
    Contains s substr = true ↔ substr.data <:+: s.data :=
  containsChars_iff _ _

theorem Contains_append_left (a b substr : String) (h : Contains b substr = true) :
    Contains (a ++ b) substr = true := by
  rw [Contains_iff] at h ⊢
  rw [String.data_append]
  exact List.IsInfix.trans h (List.suffix_append _ _).isInfix

theorem Contains_append_right (a b substr : String) (h : Contains a substr = true) :
    Contains (a ++ b) substr = true := by
  rw [Contains_iff] at h ⊢
  rw [String.data_append]
  exact List.IsInfix.trans h (List.prefix_append _ _).isInfix

/-! ## Helper lemmas on logs -/

@[simp] theorem responses_nil : responses [] = [] := rfl

@[simp] theorem responses_respond (r : Response) (es : List Event) :
    responses (Event.respond r :: es) = r :: responses es := rfl

@[simp] theorem responses_stage (n : String) (es : List Event) :
    responses (Event.stage n :: es) = responses es := rfl

@[simp] theorem responses_execCount (q : Query) (es : List Event) :
    responses (Event.execCount q :: es) = responses es := rfl

@[simp] theorem responses_execFind (q : Query) (es : List Event) :
    responses (Event.execFind q :: es) = responses es := rfl

@[simp] theorem responses_append (l₁ l₂ : List Event) :
    responses (l₁ ++ l₂) = responses l₁ ++ responses l₂ := by
  induction l₁ with
  | nil => rfl
  | cons e l ih => cases e <;> simp [responses, ih]

@[simp] theorem dataQueries_nil : dataQueries [] = [] := rfl

@[simp] theorem dataQueries_respond (r : Response) (es : List Event) :
    dataQueries (Event.respond r :: es) = dataQueries es := rfl

@[simp] theorem dataQueries_stage (n : String) (es : List Event) :
    dataQueries (Event.stage n :: es) = dataQueries es := rfl

@[simp] theorem dataQueries_execCount (q : Query) (es : List Event) :
    dataQueries (Event.execCount q :: es) = dataQueries es := rfl

@[simp] theorem dataQueries_execFind (q : Query) (es : List Event) :
    dataQueries (Event.execFind q :: es) = q :: dataQueries es := rfl

@[simp] theorem dataQueries_append (l₁ l₂ : List Event) :
    dataQueries (l₁ ++ l₂) = dataQueries l₁ ++ dataQueries l₂ := by
  induction l₁ with
  | nil => rfl
  | cons e l ih => cases e <;> simp [dataQueries, ih]

@[simp] theorem responses_JSON (status : Nat) (p : Payload) (es : List Event) :
    responses (JSON status p :: es) = { status := status, body := Body.json p } :: responses es :=
  rfl

@[simp] theorem responses_Csv (status : Nat) (p : Payload) (es : List Event) :
    responses (Csv status p :: es) = { status := status, body := Body.csv p } :: responses es :=
  rfl

@[simp] theorem dataQueries_JSON (status : Nat) (p : Payload) (es : List Event) :
    dataQueries (JSON status p :: es) = dataQueries es := rfl

@[simp] theorem dataQueries_Csv (status : Nat) (p : Payload) (es : List Event) :
    dataQueries (Csv status p :: es) = dataQueries es := rfl

@[simp] theorem dataQueries_LogAndRespStatusError (st : Nat) (e m : String)
    (es : List Event) : dataQueries (LogAndRespStatusError st e m :: es) = dataQueries es := rfl

@[simp] theorem dataQueries_LogAndRespError (e m : String) (es : List Event) :
    dataQueries (LogAndRespError e m :: es) = dataQueries es := rfl

@[simp] theorem dataQueries_LogAndRespBadRequest (e m : String) (es : List Event) :
    dataQueries (LogAndRespBadRequest e m :: es) = dataQueries es := rfl

@[simp] theorem dataQueries_LogAndRespNotFound (e m : String) (es : List Event) :
    dataQueries (LogAndRespNotFound e m :: es) = dataQueries es := rfl

@[simp] theorem dataQueries_LogWarnAndResp (st : Nat) (m : String) (es : List Event) :
    dataQueries (LogWarnAndResp st m :: es) = dataQueries es := rfl

@[simp] theorem responses_LogAndRespStatusError (st : Nat) (e m : String) (es : List Event) :
    responses (LogAndRespStatusError st e m :: es) =
      { status := st, body := Body.json (Payload.error { Error := m }) } :: responses es := rfl

@[simp] theorem responses_LogAndRespError (e m : String) (es : List Event) :
    responses (LogAndRespError e m :: es) =
      { status := 500, body := Body.json (Payload.error { Error := m }) } :: responses es := rfl

@[simp] theorem responses_LogAndRespBadRequest (e m : String) (es : List Event) :
    responses (LogAndRespBadRequest e m :: es) =
      { status := 400, body := Body.json (Payload.error { Error := m }) } :: responses es := rfl

@[simp] theorem responses_LogAndRespNotFound (e m : String) (es : List Event) :
    responses (LogAndRespNotFound e m :: es) =
      { status := 404, body := Body.json (Payload.error { Error := m }) } :: responses es := rfl

@[simp] theorem responses_LogWarnAndResp (st : Nat) (m : String) (es : List Event) :
    responses (LogWarnAndResp st m :: es) =
      { status := st, body := Body.json (Payload.error { Error := m }) } :: responses es := rfl

/-- A successful `ParseTagsFilters` writes nothing. -/
theorem ParseTagsFilters_some (c : Ctx) (evt : List Event) (tags : List TagPredicate)
    (h : ParseTagsFilters c = (evt, some tags)) : evt = [] := by
  unfold ParseTagsFilters at h
  split at h <;> simp at h
  exact h.1

/-- A successful `ExportListCommon` writes nothing. -/
theorem ExportListCommon_some (tx : Query) (c : Ctx) (opts : ListOpts) (eve : List Event)
    (q : Query) (h : ExportListCommon tx c opts = (eve, some q)) : eve = [] := by
  unfold ExportListCommon at h
  split at h
  · simp at h
  · split at h <;> simp at h
    exact h.1

/-! ## Systems export and advisory systems export: content negotiation -/

/-- The log of `AdvisorySystemsExportHandler` once the rows are fetched: every stage before
the renderer succeeded. -/
theorem AdvisorySystemsExportHandler_fetched (deps : AdvisoryDeps) (db : Database) (c : Ctx)
    (n : Int) (evt eve : List Event) (tags : List TagPredicate) (q : Query)
    (rows : List SystemDBLookup)
    (hname : c.Param "advisory_id" ≠ "")
    (hcount : db.count (advisoryExistsQuery (c.Param "advisory_id")) = (n, none))
    (hn : n ≠ 0)
    (htags : ParseTagsFilters c = (evt, some tags))
    (hq : ExportListCommon
      ((ApplyTagsFilter tags
        (deps.buildAdvisorySystemsQuery c.GetIntAccount (c.Param "advisory_id"))
        "sp.inventory_id").Order "sp.id") c deps.AdvisorySystemOpts = (eve, some q))
    (hfind : db.find q = Except.ok rows) :
    AdvisorySystemsExportHandler deps db c =
      [Event.execCount (advisoryExistsQuery (c.Param "advisory_id")),
       Event.stage "buildAdvisorySystemsQuery", Event.stage "ParseTagsFilters",
       Event.stage "ApplyTagsFilter", Event.stage "ExportListCommon",
       Event.execFind q, Event.stage "parseAndFillTags",
       if Contains (c.GetHeader "Accept") "application/json" then
         JSON 200 (Payload.lookups (deps.parseAndFillTags rows))
       else if Contains (c.GetHeader "Accept") "text/csv" then
         Csv 200 (Payload.lookups (deps.parseAndFillTags rows))
       else LogWarnAndResp 415 (invalidContentTypeMsg (c.GetHeader "Accept"))] := by
  have h1 := ParseTagsFilters_some c evt tags htags
  have h2 := ExportListCommon_some _ c _ eve q hq
  subst h1 h2
  unfold AdvisorySystemsExportHandler
  simp only [hname, if_false, hcount, hn, htags, hq, hfind]
  split <;> [skip; split] <;> simp

/-- The log of `SystemsExportHandler` once the rows are fetched. -/
theorem SystemsExportHandler_fetched (db : Database) (c : Ctx) (rows : List SystemDBLookup)
    (hfind : db.find ((querySystems c.GetStringAccount).Order "id") = Except.ok rows) :
    SystemsExportHandler db c =
      [Event.stage "querySystems",
       Event.execFind ((querySystems c.GetStringAccount).Order "id"),
       if Contains (c.GetHeader "Accept") "application/json" then
         JSON 200 (Payload.inline (rows.map toInlineItem))
       else if Contains (c.GetHeader "Accept") "text/csv" then
         Csv 200 (Payload.inline (rows.map toInlineItem))
       else LogAndRespStatusError 415 "Invalid content type"
         "This endpoint provides only application/json and text/csv"] := by
  unfold SystemsExportHandler
  simp only [hfind]
  split <;> [skip; split] <;> simp

/-- C1: in both export handlers, once the rows are fetched, an Accept header containing
`application/json` is answered with status 200 and the JSON rendering, an Accept header
containing `text/csv` but not `application/json` with status 200 and the CSV rendering; the
value handed to either renderer is the same row list: the fetched rows after
`parseAndFillTags` in the advisory export, the fetched rows converted one by one to
`SystemInlineItem` (same ID, same attributes, same order) in the systems export. -/
theorem export_renders_fetched_rows_by_accept (deps : AdvisoryDeps) (db : Database) (c : Ctx) :
    (∀ (n : Int) (evt eve : List Event) (tags : List TagPredicate) (q : Query)
        (rows : List SystemDBLookup),
      c.Param "advisory_id" ≠ "" →
      db.count (advisoryExistsQuery (c.Param "advisory_id")) = (n, none) →
      n ≠ 0 →
      ParseTagsFilters c = (evt, some tags) →
      ExportListCommon
        ((ApplyTagsFilter tags
          (deps.buildAdvisorySystemsQuery c.GetIntAccount (c.Param "advisory_id"))
          "sp.inventory_id").Order "sp.id") c deps.AdvisorySystemOpts = (eve, some q) →
      db.find q = Except.ok rows →
      (Contains (c.GetHeader "Accept") "application/json" = true →
        responses (AdvisorySystemsExportHandler deps db c) =
          [{ status := 200
             body := Body.json (Payload.lookups (deps.parseAndFillTags rows)) }]) ∧
      (Contains (c.GetHeader "Accept") "application/json" = false →
        Contains (c.GetHeader "Accept") "text/csv" = true →
        responses (AdvisorySystemsExportHandler deps db c) =
          [{ status := 200
             body := Body.csv (Payload.lookups (deps.parseAndFillTags rows)) }])) ∧
    (∀ rows : List SystemDBLookup,
      db.find ((querySystems c.GetStringAccount).Order "id") = Except.ok rows →
      (Contains (c.GetHeader "Accept") "application/json" = true →
        responses (SystemsExportHandler db c) =
          [{ status := 200, body := Body.json (Payload.inline (rows.map toInlineItem)) }]) ∧
      (Contains (c.GetHeader "Accept") "application/json" = false →
        Contains (c.GetHeader "Accept") "text/csv" = true →
        responses (SystemsExportHandler db c) =
          [{ status := 200, body := Body.csv (Payload.inline (rows.map toInlineItem)) }]) ∧
      (rows.map toInlineItem).map (fun d => (d.ID, d.SystemItemAttributes)) =
        rows.map (fun v => (v.ID, v.SystemItemAttributes))) := by
  constructor
  · intro n evt eve tags q rows hname hcount hn htags hq hfind
    rw [AdvisorySystemsExportHandler_fetched deps db c n evt eve tags q rows hname hcount hn
      htags hq hfind]
    constructor
    · intro hj
      simp [hj]
    · intro hj hc
      simp [hj, hc]
  · intro rows hfind
    rw [SystemsExportHandler_fetched db c rows hfind]
    refine ⟨?_, ?_, ?_⟩
    · intro hj
      simp [hj]
    · intro hj hc
      simp [hj, hc]
    · simp [toInlineItem]

/-- Witness of C1: on either handler, a request accepting both formats is answered in JSON
and a request accepting only `text/csv` in CSV, with the same fetched row. The systems
export requests carry no `advisory_id`. -/
theorem export_renders_fetched_rows_by_accept_witness :
    (responses (AdvisorySystemsExportHandler sampleDeps (sampleDb 1 [sampleSystem])
        (sampleCtx "RHSA-2024:0001" "text/csv, application/json")) =
        [{ status := 200, body := Body.json (Payload.lookups [sampleSystem]) }] ∧
      responses (AdvisorySystemsExportHandler sampleDeps (sampleDb 1 [sampleSystem])
        (sampleCtx "RHSA-2024:0001" "text/csv")) =
        [{ status := 200, body := Body.csv (Payload.lookups [sampleSystem]) }]) ∧
    (responses (SystemsExportHandler (sampleDb 1 [sampleSystem])
        (sampleCtx "" "text/csv, application/json")) =
        [{ status := 200, body := Body.json (Payload.inline [toInlineItem sampleSystem]) }] ∧
      responses (SystemsExportHandler (sampleDb 1 [sampleSystem]) (sampleCtx "" "text/csv")) =
        [{ status := 200, body := Body.csv (Payload.inline [toInlineItem sampleSystem]) }]) :=
  ⟨⟨((export_renders_fetched_rows_by_accept sampleDeps (sampleDb 1 [sampleSystem])
        (sampleCtx "RHSA-2024:0001" "text/csv, application/json")).1 1 [] [] []
        sampleExportQuery [sampleSystem] (by decide) rfl (by decide) rfl (by decide) rfl).1
        (by decide),
     ((export_renders_fetched_rows_by_accept sampleDeps (sampleDb 1 [sampleSystem])
        (sampleCtx "RHSA-2024:0001" "text/csv")).1 1 [] [] []
        sampleExportQuery [sampleSystem] (by decide) rfl (by decide) rfl (by decide) rfl).2
        (by decide) (by decide)⟩,
   ⟨((export_renders_fetched_rows_by_accept sampleDeps (sampleDb 1 [sampleSystem])
        (sampleCtx "" "text/csv, application/json")).2 [sampleSystem] rfl).1 (by decide),
     ((export_renders_fetched_rows_by_accept sampleDeps (sampleDb 1 [sampleSystem])
        (sampleCtx "" "text/csv")).2 [sampleSystem] rfl).2.1 (by decide) (by decide)⟩⟩

/-- The 415 message of the advisory systems export names both supported content types. -/
theorem invalidContentTypeMsg_names_both (accept : String) :
    Contains (invalidContentTypeMsg accept) "application/json" = true ∧
    Contains (invalidContentTypeMsg accept) "text/csv" = true := by
  unfold invalidContentTypeMsg
  exact ⟨Contains_append_left _ _ _ (by decide), Contains_append_left _ _ _ (by decide)⟩

/-- C2, counterexample: with the Accept header `text/xml`, which contains neither supported
type, the advisory systems export answers 404 for an unknown advisory and the systems
export answers 500 when its query fails; neither answers 415. -/
theorem export_unsupported_accept_not_always_415 :
    Contains "text/xml" "application/json" = false ∧ Contains "text/xml" "text/csv" = false ∧
    responses (AdvisorySystemsExportHandler sampleDeps (sampleDb 0 [sampleSystem])
        (sampleCtx "RHSA-0000:0000" "text/xml")) =
      [{ status := 404, body := Body.json (Payload.error { Error := "Advisory not found" }) }] ∧
    responses (SystemsExportHandler failingFindDb (sampleCtx "" "text/xml")) =
      [{ status := 500, body := Body.json (Payload.error { Error := "db error" }) }] := by
  refine ⟨by decide, by decide, by decide, by decide⟩

/-- C2, amended: in both export handlers, once the rows are fetched, an Accept header
containing neither `application/json` nor `text/csv` is answered with status 415 and
nothing else: the only response is the error, no rows are rendered, and its message
contains both `application/json` and `text/csv`. -/
theorem export_rejects_unsupported_accept (deps : AdvisoryDeps) (db : Database) (c : Ctx)
    (hj : Contains (c.GetHeader "Accept") "application/json" = false)
    (hc : Contains (c.GetHeader "Accept") "text/csv" = false) :
    (∀ (n : Int) (evt eve : List Event) (tags : List TagPredicate) (q : Query)
        (rows : List SystemDBLookup),
      c.Param "advisory_id" ≠ "" →
      db.count (advisoryExistsQuery (c.Param "advisory_id")) = (n, none) →
      n ≠ 0 →
      ParseTagsFilters c = (evt, some tags) →
      ExportListCommon
        ((ApplyTagsFilter tags
          (deps.buildAdvisorySystemsQuery c.GetIntAccount (c.Param "advisory_id"))
          "sp.inventory_id").Order "sp.id") c deps.AdvisorySystemOpts = (eve, some q) →
      db.find q = Except.ok rows →
      responses (AdvisorySystemsExportHandler deps db c) =
        [{ status := 415
           body := Body.json
             (Payload.error { Error := invalidContentTypeMsg (c.GetHeader "Accept") }) }] ∧
      Contains (invalidContentTypeMsg (c.GetHeader "Accept")) "application/json" = true ∧
      Contains (invalidContentTypeMsg (c.GetHeader "Accept")) "text/csv" = true) ∧
    (∀ rows : List SystemDBLookup,
      db.find ((querySystems c.GetStringAccount).Order "id") = Except.ok rows →
      responses (SystemsExportHandler db c) =
        [{ status := 415
           body := Body.json (Payload.error
             { Error := "This endpoint provides only application/json and text/csv" }) }] ∧
      Contains "This endpoint provides only application/json and text/csv"
        "application/json" = true ∧
      Contains "This endpoint provides only application/json and text/csv"
        "text/csv" = true) := by
  constructor
  · intro n evt eve tags q rows hname hcount hn htags hq hfind
    rw [AdvisorySystemsExportHandler_fetched deps db c n evt eve tags q rows hname hcount hn
      htags hq hfind]
    refine ⟨?_, invalidContentTypeMsg_names_both _⟩
    simp [hj, hc, LogWarnAndResp]
  · intro rows hfind
    rw [SystemsExportHandler_fetched db c rows hfind]
    refine ⟨?_, by decide, by decide⟩
    simp [hj, hc, LogAndRespStatusError]

/-- Witness of the amended C2: the Accept header `text/xml` on the advisory systems export
of a known advisory and on the systems export, whose request carries no `advisory_id`. -/
theorem export_rejects_unsupported_accept_witness :
    (responses (AdvisorySystemsExportHandler sampleDeps (sampleDb 1 [sampleSystem])
        (sampleCtx "RHSA-2024:0001" "text/xml")) =
        [{ status := 415
           body := Body.json (Payload.error
             { Error := "Invalid content type 'text/xml', use 'application/json' or 'text/csv'" }) }] ∧
      Contains (invalidContentTypeMsg "text/xml") "application/json" = true ∧
      Contains (invalidContentTypeMsg "text/xml") "text/csv" = true) ∧
    (responses (SystemsExportHandler (sampleDb 1 [sampleSystem]) (sampleCtx "" "text/xml")) =
        [{ status := 415
           body := Body.json (Payload.error
             { Error := "This endpoint provides only application/json and text/csv" }) }] ∧
      Contains "This endpoint provides only application/json and text/csv"
        "application/json" = true ∧
      Contains "This endpoint provides only application/json and text/csv"
        "text/csv" = true) :=
  ⟨(export_rejects_unsupported_accept sampleDeps (sampleDb 1 [sampleSystem])
      (sampleCtx "RHSA-2024:0001" "text/xml") (by decide) (by decide)).1 1 [] [] []
      sampleExportQuery [sampleSystem] (by decide) rfl (by decide) rfl (by decide) rfl,
   (export_rejects_unsupported_accept sampleDeps (sampleDb 1 [sampleSystem])
      (sampleCtx "" "text/xml") (by decide) (by decide)).2 [sampleSystem] rfl⟩

/-! ## Advisory systems export: the existence check -/

/-- C4: in `AdvisorySystemsExportHandler`, a request with a non-empty `advisory_id` whose
existence count succeeds and yields 0 is answered with 404 "Advisory not found" and the
handler stops: the count is its only query, no stage of the systems export query is
entered and no rows are rendered; a request with an empty `advisory_id` is answered with
400 and no query at all. -/
theorem advisory_not_found_or_missing_param (deps : AdvisoryDeps) (db : Database) (c : Ctx) :
    (c.Param "advisory_id" ≠ "" →
      db.count (advisoryExistsQuery (c.Param "advisory_id")) = (0, none) →
      AdvisorySystemsExportHandler deps db c =
        [Event.execCount (advisoryExistsQuery (c.Param "advisory_id")),
         Event.respond { status := 404
                         body := Body.json (Payload.error { Error := "Advisory not found" }) }]) ∧
    (c.Param "advisory_id" = "" →
      AdvisorySystemsExportHandler deps db c =
        [Event.respond { status := 400
                         body := Body.json
                           (Payload.error { Error := "advisory_id param not found" }) }]) := by
  constructor
  · intro hname hcount
    unfold AdvisorySystemsExportHandler
    simp [hname, hcount, LogAndRespNotFound, LogAndRespStatusError, JSON]
  · intro hname
    unfold AdvisorySystemsExportHandler
    simp [hname, JSON]

/-- Witness of C4: an unknown advisory, and a request without `advisory_id`. -/
theorem advisory_not_found_or_missing_param_witness :
    AdvisorySystemsExportHandler sampleDeps (sampleDb 0 [sampleSystem])
        (sampleCtx "RHSA-0000:0000" "application/json") =
      [Event.execCount (advisoryExistsQuery "RHSA-0000:0000"),
       Event.respond { status := 404
                       body := Body.json (Payload.error { Error := "Advisory not found" }) }] ∧
    AdvisorySystemsExportHandler sampleDeps (sampleDb 1 [sampleSystem])
        (sampleCtx "" "application/json") =
      [Event.respond { status := 400
                       body := Body.json
                         (Payload.error { Error := "advisory_id param not found" }) }] :=
  ⟨(advisory_not_found_or_missing_param sampleDeps (sampleDb 0 [sampleSystem])
      (sampleCtx "RHSA-0000:0000" "application/json")).1 (by decide) rfl,
   (advisory_not_found_or_missing_param sampleDeps (sampleDb 1 [sampleSystem])
      (sampleCtx "" "application/json")).2 (by decide)⟩

/-! ## Helper lemmas on the query builder -/

theorem foldl_Order_eq (tx : Query) (keys : List String) :
    keys.foldl Query.Order tx = { tx with orders := tx.orders ++ keys } := by
  induction keys generalizing tx with
  | nil => simp
  | cons k ks ih => simp [List.foldl_cons, ih, Query.Order]

theorem ApplySort_eq (tx : Query) (keys : List String) (registry : List FieldDescriptor) :
    ApplySort tx keys registry =
      { tx with orders := tx.orders ++ (keys ++ tieBreakKey registry) } := by
  unfold ApplySort
  exact foldl_Order_eq tx _

theorem ApplyFilters_eq (tx : Query) (filters : List Clause) :
    ApplyFilters tx filters = { tx with wheres := tx.wheres ++ filters } := by
  unfold ApplyFilters
  induction filters generalizing tx with
  | nil => simp
  | cons k ks ih => simp [List.foldl_cons, ih, Query.Restrict]

theorem ApplyTagsFilter_eq (filters : List TagPredicate) (tx : Query) (joinKey : String) :
    ApplyTagsFilter filters tx joinKey =
      { tx with wheres := tx.wheres ++ filters.map (Clause.tag joinKey) } := by
  unfold ApplyTagsFilter
  induction filters generalizing tx with
  | nil => simp
  | cons k ks ih =>
    rw [List.foldl_cons, ih]
    simp [Query.Restrict]

theorem ApplySearch_eq (c : Ctx) (tx : Query) (fields : List String) :
    ApplySearch c tx fields =
      { tx with wheres := tx.wheres ++
          (if c.search = "" ∨ fields = [] then [] else [Clause.search fields c.search]) } := by
  unfold ApplySearch
  split <;> simp [Query.Restrict]

theorem Paginate_eq (tx : Query) (limit offset : Int) :
    withoutPaging (Paginate tx limit offset) = withoutPaging tx := by
  unfold Paginate withoutPaging
  split <;> simp [Query.Limit, Query.Offset]

/-! ## Advisory systems export: a failing existence count -/

/-- When the existence count fails and leaves the counter at zero, the handler writes the
500 response, does not return, and writes the 404 response next. -/
theorem AdvisorySystemsExportHandler_count_error (deps : AdvisoryDeps) (db : Database)
    (c : Ctx) (err : String) (hname : c.Param "advisory_id" ≠ "")
    (hcount : db.count (advisoryExistsQuery (c.Param "advisory_id")) = (0, some err)) :
    AdvisorySystemsExportHandler deps db c =
      [Event.execCount (advisoryExistsQuery (c.Param "advisory_id")),
       Event.respond { status := 500
                       body := Body.json (Payload.error { Error := "database error" }) },
       Event.respond { status := 404
                       body := Body.json (Payload.error { Error := "Advisory not found" }) }] := by
  unfold AdvisorySystemsExportHandler
  simp [hname, hcount, LogAndRespNotFound, LogAndRespError, LogAndRespStatusError, JSON]

/-- C3, at the failing input: for a request with a non-empty `advisory_id` whose existence
count returns a database error, `AdvisorySystemsExportHandler` does not stop after the
error response: it writes the 500 response and then a second response, 404. -/
theorem advisory_count_error_writes_two_responses :
    AdvisorySystemsExportHandler sampleDeps failingCountDb
        (sampleCtx "RHSA-2024:0001" "application/json") =
      [Event.execCount (advisoryExistsQuery "RHSA-2024:0001"),
       Event.respond { status := 500
                       body := Body.json (Payload.error { Error := "database error" }) },
       Event.respond { status := 404
                       body := Body.json (Payload.error { Error := "Advisory not found" }) }] ∧
    (responses (AdvisorySystemsExportHandler sampleDeps failingCountDb
        (sampleCtx "RHSA-2024:0001" "application/json"))).length = 2 := by
  constructor
  · exact AdvisorySystemsExportHandler_count_error sampleDeps failingCountDb
      (sampleCtx "RHSA-2024:0001" "application/json") "connection refused" (by decide) rfl
  · decide

/-! ## Advisory systems export: the ORDER BY clause -/

theorem dataQueries_ParseTagsFilters (c : Ctx) : dataQueries (ParseTagsFilters c).1 = [] := by
  unfold ParseTagsFilters
  split <;> simp [LogAndRespBadRequest, LogAndRespStatusError]

theorem dataQueries_ExportListCommon (tx : Query) (c : Ctx) (opts : ListOpts) :
    dataQueries (ExportListCommon tx c opts).1 = [] := by
  unfold ExportListCommon
  split
  · simp [LogAndRespBadRequest, LogAndRespStatusError]
  · split <;> simp [LogAndRespBadRequest, LogAndRespStatusError]

theorem dataQueries_countError (err : Option String) :
    dataQueries
      (match err with
       | some e => [LogAndRespError e "database error"]
       | none => []) = [] := by
  cases err <;> simp

/-- What a successful `ExportListCommon` returns. -/
theorem ExportListCommon_result (tx : Query) (c : Ctx) (opts : ListOpts) (eve : List Event)
    (q : Query) (h : ExportListCommon tx c opts = (eve, some q)) :
    ∃ filters keys, ParseFilters c.filters opts.Fields opts.DefaultFilters = Except.ok filters ∧
      ParseSort c.sort opts.Fields opts.DefaultSort = Except.ok keys ∧
      q = ApplySort (ApplyFilters (ApplySearch c tx opts.SearchFields) filters) keys
        opts.Fields := by
  unfold ExportListCommon at h
  split at h
  · simp at h
  · rename_i filters hf
    split at h
    · simp at h
    · rename_i keys hk
      simp at h
      exact ⟨filters, keys, hf, hk, h.2.symm⟩

/-- Every data query executed by `AdvisorySystemsExportHandler` is the result of
`ExportListCommon` on the tag-filtered base query ordered by `sp.id`. -/
theorem AdvisorySystemsExportHandler_dataQueries (deps : AdvisoryDeps) (db : Database)
    (c : Ctx) (q : Query) (h : q ∈ dataQueries (AdvisorySystemsExportHandler deps db c)) :
    ∃ tags eve, ParseTagsFilters c = ([], some tags) ∧
      ExportListCommon
        ((ApplyTagsFilter tags
          (deps.buildAdvisorySystemsQuery c.GetIntAccount (c.Param "advisory_id"))
          "sp.inventory_id").Order "sp.id") c deps.AdvisorySystemOpts = (eve, some q) := by
  by_cases hname : c.Param "advisory_id" = ""
  · simp [AdvisorySystemsExportHandler, hname, JSON] at h
  rcases hcount : db.count (advisoryExistsQuery (c.Param "advisory_id")) with ⟨n, err⟩
  have hev1 := dataQueries_countError err
  by_cases hn : n = 0
  · simp [AdvisorySystemsExportHandler, hname, hcount, hn, hev1] at h
  rcases htags : ParseTagsFilters c with ⟨evt, _ | tags⟩
  · have hd := dataQueries_ParseTagsFilters c
    rw [htags] at hd
    simp [AdvisorySystemsExportHandler, hname, hcount, hn, hev1, htags] at h hd
    rw [hd] at h
    simp at h
  have hevt := ParseTagsFilters_some c evt tags htags
  subst hevt
  rcases hq : ExportListCommon
    ((ApplyTagsFilter tags
      (deps.buildAdvisorySystemsQuery c.GetIntAccount (c.Param "advisory_id"))
      "sp.inventory_id").Order "sp.id") c deps.AdvisorySystemOpts with ⟨eve, _ | q'⟩
  · have hd := dataQueries_ExportListCommon
      ((ApplyTagsFilter tags
        (deps.buildAdvisorySystemsQuery c.GetIntAccount (c.Param "advisory_id"))
        "sp.inventory_id").Order "sp.id") c deps.AdvisorySystemOpts
    rw [hq] at hd
    simp [AdvisorySystemsExportHandler, hname, hcount, hn, hev1, htags, hq] at h hd
    rw [hd] at h
    simp at h
  have heve := ExportListCommon_some _ c _ eve q' hq
  subst heve
  refine ⟨tags, [], rfl, ?_⟩
  have hqq : q = q' := by
    cases hfind : db.find q' with
    | error e =>
      simpa [AdvisorySystemsExportHandler, hname, hcount, hn, hev1, htags, hq, hfind] using h
    | ok rows =>
      by_cases hj : Contains (c.GetHeader "Accept") "application/json" = true
      · simpa [AdvisorySystemsExportHandler, hname, hcount, hn, hev1, htags, hq, hfind, hj]
          using h
      · by_cases hc : Contains (c.GetHeader "Accept") "text/csv" = true
        · simpa [AdvisorySystemsExportHandler, hname, hcount, hn, hev1, htags, hq, hfind, hj,
            hc] using h
        · simpa [AdvisorySystemsExportHandler, hname, hcount, hn, hev1, htags, hq, hfind, hj,
            hc] using h
  rw [hqq]
  exact hq

/-- The ORDER BY clause of every data query executed by `AdvisorySystemsExportHandler`: the
keys of the base query, then `sp.id`, then the keys of the sort specification in their
order, then the final tie-break key of the sort stage. -/
theorem AdvisorySystemsExportHandler_orders (deps : AdvisoryDeps) (db : Database)
    (c : Ctx) (q : Query) (h : q ∈ dataQueries (AdvisorySystemsExportHandler deps db c)) :
    ∃ keys, ParseSort c.sort deps.AdvisorySystemOpts.Fields
        deps.AdvisorySystemOpts.DefaultSort = Except.ok keys ∧
      q.orders =
        (deps.buildAdvisorySystemsQuery c.GetIntAccount (c.Param "advisory_id")).orders ++
          "sp.id" :: (keys ++ tieBreakKey deps.AdvisorySystemOpts.Fields) := by
  obtain ⟨tags, eve, _, hq⟩ := AdvisorySystemsExportHandler_dataQueries deps db c q h
  obtain ⟨filters, keys, _, hk, hqq⟩ := ExportListCommon_result _ c _ eve q hq
  refine ⟨keys, hk, ?_⟩
  rw [hqq, ApplySort_eq, ApplyFilters_eq, ApplySearch_eq, ApplyTagsFilter_eq]
  simp [Query.Order]

/-- C5, at the failing input: for a request sorted by display name, the ORDER BY clause of
the executed export query starts with `sp.id`, which the handler adds before the sort
stage runs; the key of the sort specification and the final tie-break key of the sort
stage come after it, so `sp.id` is not the final key and takes priority over the declared
sort key. -/
theorem advisory_export_tiebreak_not_final :
    (dataQueries (AdvisorySystemsExportHandler sampleDeps (sampleDb 1 []) sortedCtx)).map
        (fun q => q.orders) =
      [["sp.id", "system_platform.display_name ASC", "system_platform.inventory_id ASC"]] ∧
    ¬ ∀ q ∈ dataQueries (AdvisorySystemsExportHandler sampleDeps (sampleDb 1 []) sortedCtx),
        q.orders.getLast? = some "sp.id" := by
  have h : dataQueries (AdvisorySystemsExportHandler sampleDeps (sampleDb 1 []) sortedCtx) =
      [(((sampleDeps.buildAdvisorySystemsQuery 0 "RHSA-2024:0001").Order "sp.id").Order
        "system_platform.display_name ASC").Order "system_platform.inventory_id ASC"] := by
    decide
  rw [h]
  constructor
  · decide
  · intro hall
    have := hall _ (List.mem_singleton.mpr rfl)
    revert this
    decide

/-! ## Systems list: the shape of the log -/

/-- The outcomes of `ListCommon`, path by path. -/
theorem ListCommon_cases (db : Database) (tx : Query) (c : Ctx) (path : String)
    (opts : ListOpts) :
    (∃ e, ListCommon db tx c path opts = ([LogAndRespBadRequest e e], none)) ∨
    (∃ filters e, ParseFilters c.filters opts.Fields opts.DefaultFilters = Except.ok filters ∧
      ListCommon db tx c path opts =
        ([Event.execCount (ApplyFilters tx filters), LogAndRespError e "database error"],
          none)) ∨
    (∃ filters keys limit offset total,
      ParseFilters c.filters opts.Fields opts.DefaultFilters = Except.ok filters ∧
      ParseSort c.sort opts.Fields opts.DefaultSort = Except.ok keys ∧
      ParsePage c = Except.ok (limit, offset) ∧
      db.count (ApplyFilters tx filters) = (total, none) ∧
      ListCommon db tx c path opts =
        ([Event.execCount (ApplyFilters tx filters)],
          some (Paginate (ApplySort (ApplyFilters tx filters) keys opts.Fields) limit offset,
            BuildMeta total limit offset, BuildLinks path (BuildMeta total limit offset)))) := by
  cases hf : ParseFilters c.filters opts.Fields opts.DefaultFilters with
  | error e => exact Or.inl ⟨e, by simp [ListCommon, hf]⟩
  | ok filters =>
    cases hk : ParseSort c.sort opts.Fields opts.DefaultSort with
    | error e => exact Or.inl ⟨e, by simp [ListCommon, hf, hk]⟩
    | ok keys =>
      cases hp : ParsePage c with
      | error e => exact Or.inl ⟨e, by simp [ListCommon, hf, hk, hp]⟩
      | ok page =>
        obtain ⟨limit, offset⟩ := page
        rcases hcount : db.count (ApplyFilters tx filters) with ⟨total, _ | e⟩
        · exact Or.inr (Or.inr ⟨filters, keys, limit, offset, total, rfl, rfl, rfl, hcount,
            by simp [ListCommon, hf, hk, hp, hcount]⟩)
        · exact Or.inr (Or.inl ⟨filters, e, rfl, by simp [ListCommon, hf, hk, hp, hcount]⟩)

/-- The log of `SystemsListHandler`, path by path. -/
theorem SystemsListHandler_cases (db : Database) (c : Ctx) :
    (∃ e, SystemsListHandler db c =
      [Event.stage "querySystems", Event.stage "ApplySearch", Event.stage "ListCommon",
       LogAndRespBadRequest e e]) ∨
    (∃ filters e, SystemsListHandler db c =
      [Event.stage "querySystems", Event.stage "ApplySearch", Event.stage "ListCommon",
       Event.execCount (ApplyFilters
         (ApplySearch c (querySystems c.GetStringAccount) ["system_platform.display_name"])
         filters),
       LogAndRespError e "database error"]) ∨
    (∃ filters keys limit offset total,
      ListCommon db
        (ApplySearch c (querySystems c.GetStringAccount) ["system_platform.display_name"])
        c "/api/patch/v1/systems" SystemOpts =
        ([Event.execCount (ApplyFilters
            (ApplySearch c (querySystems c.GetStringAccount) ["system_platform.display_name"])
            filters)],
          some (Paginate (ApplySort (ApplyFilters
              (ApplySearch c (querySystems c.GetStringAccount)
                ["system_platform.display_name"]) filters) keys SystemOpts.Fields) limit offset,
            BuildMeta total limit offset,
            BuildLinks "/api/patch/v1/systems" (BuildMeta total limit offset))) ∧
      ((∃ e, SystemsListHandler db c =
        [Event.stage "querySystems", Event.stage "ApplySearch", Event.stage "ListCommon",
         Event.execCount (ApplyFilters
           (ApplySearch c (querySystems c.GetStringAccount) ["system_platform.display_name"])
           filters),
         Event.execFind (Paginate (ApplySort (ApplyFilters
           (ApplySearch c (querySystems c.GetStringAccount) ["system_platform.display_name"])
           filters) keys SystemOpts.Fields) limit offset),
         LogAndRespError e "db error"]) ∨
      (∃ systems,
        db.find (Paginate (ApplySort (ApplyFilters
          (ApplySearch c (querySystems c.GetStringAccount) ["system_platform.display_name"])
          filters) keys SystemOpts.Fields) limit offset) = Except.ok systems ∧
        SystemsListHandler db c =
        [Event.stage "querySystems", Event.stage "ApplySearch", Event.stage "ListCommon",
         Event.execCount (ApplyFilters
           (ApplySearch c (querySystems c.GetStringAccount) ["system_platform.display_name"])
           filters),
         Event.execFind (Paginate (ApplySort (ApplyFilters
           (ApplySearch c (querySystems c.GetStringAccount) ["system_platform.display_name"])
           filters) keys SystemOpts.Fields) limit offset),
         Event.stage "buildData",
         JSON 200 (Payload.list
           { Data := buildData systems
             Links := BuildLinks "/api/patch/v1/systems" (BuildMeta total limit offset)
             Meta := BuildMeta total limit offset })]))) := by
  rcases ListCommon_cases db
    (ApplySearch c (querySystems c.GetStringAccount) ["system_platform.display_name"])
    c "/api/patch/v1/systems" SystemOpts with ⟨e, h⟩ | ⟨filters, e, _, h⟩ |
    ⟨filters, keys, limit, offset, total, _, _, _, _, h⟩
  · exact Or.inl ⟨e, by simp [SystemsListHandler, h]⟩
  · exact Or.inr (Or.inl ⟨filters, e, by simp [SystemsListHandler, h]⟩)
  · refine Or.inr (Or.inr ⟨filters, keys, limit, offset, total, h, ?_⟩)
    cases hfind : db.find (Paginate (ApplySort (ApplyFilters
        (ApplySearch c (querySystems c.GetStringAccount) ["system_platform.display_name"])
        filters) keys SystemOpts.Fields) limit offset) with
    | error e => exact Or.inl ⟨e, by simp [SystemsListHandler, h, hfind]⟩
    | ok systems => exact Or.inr ⟨systems, rfl, by simp [SystemsListHandler, h, hfind]⟩

/-! ## Systems export against systems list -/

/-- C6, counterexample: for a request without parameters on a database holding a fresh and
a stale system, the export query carries only the account predicate and the key `id`,
while the list query with the paging removed also carries the default filter
`stale = false`, the key of the default sort and the final tie-break key of the sort
stage; the export returns the stale system, the list does not. -/
theorem systems_export_differs_from_list :
    (dataQueries (SystemsExportHandler staleAwareDb (sampleCtx "" "application/json"))).map
        (fun q => (q.wheres, q.orders)) =
      [([Clause.cond "ra.name = ?" [Arg.str "acme"]], ["id"])] ∧
    ((dataQueries (SystemsListHandler staleAwareDb (sampleCtx "" "application/json"))).map
        withoutPaging).map (fun q => (q.wheres, q.orders)) =
      [([Clause.cond "ra.name = ?" [Arg.str "acme"],
         Clause.filter "system_platform.stale" { Operator := "eq", Values := ["false"] }],
        ["system_platform.last_upload DESC", "system_platform.inventory_id ASC"])] ∧
    dataQueries (SystemsExportHandler staleAwareDb (sampleCtx "" "application/json")) ≠
      (dataQueries (SystemsListHandler staleAwareDb (sampleCtx "" "application/json"))).map
        withoutPaging ∧
    responses (SystemsExportHandler staleAwareDb (sampleCtx "" "application/json")) =
      [{ status := 200
         body := Body.json (Payload.inline
           [toInlineItem sampleSystem, toInlineItem sampleStaleSystem]) }] ∧
    responses (SystemsListHandler staleAwareDb (sampleCtx "" "application/json")) =
      [{ status := 200
         body := Body.json (Payload.list
           { Data := buildData [sampleSystem]
             Links := BuildLinks "/api/patch/v1/systems" (BuildMeta 1 20 0)
             Meta := BuildMeta 1 20 0 }) }] := by
  refine ⟨by decide, by decide, by decide, by decide, by decide⟩

/-- The data queries of `SystemsExportHandler`: one, whatever the outcome. -/
theorem SystemsExportHandler_dataQueries (db : Database) (c : Ctx) :
    dataQueries (SystemsExportHandler db c) = [(querySystems c.GetStringAccount).Order "id"] := by
  cases hfind : db.find ((querySystems c.GetStringAccount).Order "id") with
  | error e => simp [SystemsExportHandler, hfind]
  | ok rows =>
    rw [SystemsExportHandler_fetched db c rows hfind]
    split <;> [skip; split] <;> simp

/-- Every data query of `SystemsListHandler` is the searched base query with the merged
filters, the sort keys and the paging. -/
theorem SystemsListHandler_dataQueries (db : Database) (c : Ctx) (q : Query)
    (h : q ∈ dataQueries (SystemsListHandler db c)) :
    ∃ filters keys limit offset,
      ParseFilters c.filters SystemOpts.Fields SystemOpts.DefaultFilters = Except.ok filters ∧
      ParseSort c.sort SystemOpts.Fields SystemOpts.DefaultSort = Except.ok keys ∧
      q = Paginate (ApplySort (ApplyFilters
        (ApplySearch c (querySystems c.GetStringAccount) ["system_platform.display_name"])
        filters) keys SystemOpts.Fields) limit offset := by
  rcases SystemsListHandler_cases db c with ⟨e, hl⟩ | ⟨filters, e, hl⟩ |
    ⟨filters, keys, limit, offset, total, hlc, hl⟩
  · rw [hl] at h; simp at h
  · rw [hl] at h; simp at h
  · rcases ListCommon_cases db
      (ApplySearch c (querySystems c.GetStringAccount) ["system_platform.display_name"])
      c "/api/patch/v1/systems" SystemOpts with ⟨e, h'⟩ | ⟨f', e, _, h'⟩ |
      ⟨f', k', l', o', t', hf, hk, _, _, h'⟩
    · rw [h'] at hlc; simp at hlc
    · rw [h'] at hlc; simp at hlc
    · rw [h'] at hlc
      simp only [Prod.mk.injEq, Option.some.injEq] at hlc
      have hq : q = Paginate (ApplySort (ApplyFilters
          (ApplySearch c (querySystems c.GetStringAccount) ["system_platform.display_name"])
          filters) keys SystemOpts.Fields) limit offset := by
        rcases hl with ⟨e, hl⟩ | ⟨systems, _, hl⟩ <;> rw [hl] at h <;> simpa using h
      refine ⟨f', k', l', o', hf, hk, ?_⟩
      rw [hq]
      exact hlc.2.1.symm

/-- C6, amended: for every account and every set of request parameters, the systems export
executes one data query, the tenant-scoped base query `querySystems(account)` ordered by
`id` alone, without limit or offset: it carries no search predicate, no filter (not even
the default `stale = false`) and no key of the sort specification. The systems list query
with the paging removed is that same base query with the search predicate, the merged
filters, the sort keys and the final tie-break key of the sort stage added. -/
theorem systems_export_query_is_base_ordered_by_id (db : Database) (c : Ctx) :
    dataQueries (SystemsExportHandler db c) = [(querySystems c.GetStringAccount).Order "id"] ∧
    ((querySystems c.GetStringAccount).Order "id").wheres =
      [Clause.cond "ra.name = ?" [Arg.str c.GetStringAccount]] ∧
    ((querySystems c.GetStringAccount).Order "id").orders = ["id"] ∧
    ((querySystems c.GetStringAccount).Order "id").limit = none ∧
    ((querySystems c.GetStringAccount).Order "id").offset = none ∧
    ∀ q ∈ dataQueries (SystemsListHandler db c), ∃ filters keys,
      ParseFilters c.filters SystemOpts.Fields SystemOpts.DefaultFilters = Except.ok filters ∧
      ParseSort c.sort SystemOpts.Fields SystemOpts.DefaultSort = Except.ok keys ∧
      withoutPaging q =
        { querySystems c.GetStringAccount with
          wheres := Clause.cond "ra.name = ?" [Arg.str c.GetStringAccount] ::
            ((if c.search = "" then []
              else [Clause.search ["system_platform.display_name"] c.search]) ++ filters)
          orders := keys ++ ["system_platform.inventory_id ASC"] } := by
  refine ⟨SystemsExportHandler_dataQueries db c, rfl, rfl, rfl, rfl, ?_⟩
  intro q hq
  obtain ⟨filters, keys, limit, offset, hf, hk, hqq⟩ := SystemsListHandler_dataQueries db c q hq
  refine ⟨filters, keys, hf, hk, ?_⟩
  have htie : tieBreakKey SystemOpts.Fields = ["system_platform.inventory_id ASC"] := by
    decide
  rw [hqq, Paginate_eq, ApplySort_eq, ApplyFilters_eq, ApplySearch_eq, htie]
  simp [withoutPaging, querySystems, Query.Where, Query.Joins, Query.Select, Query.Table]

/-- Witness of the amended C6: the list query of a request without parameters. -/
theorem systems_export_query_is_base_ordered_by_id_witness :
    ∃ filters keys,
      ParseFilters (sampleCtx "" "application/json").filters SystemOpts.Fields
        SystemOpts.DefaultFilters = Except.ok filters ∧
      ParseSort (sampleCtx "" "application/json").sort SystemOpts.Fields
        SystemOpts.DefaultSort = Except.ok keys ∧
      withoutPaging (Paginate (ApplySort (ApplyFilters (querySystems "acme")
          [Clause.filter "system_platform.stale" { Operator := "eq", Values := ["false"] }])
          ["system_platform.last_upload DESC"] SystemOpts.Fields) 20 0) =
        { querySystems (sampleCtx "" "application/json").GetStringAccount with
          wheres := Clause.cond "ra.name = ?"
              [Arg.str (sampleCtx "" "application/json").GetStringAccount] ::
            ((if (sampleCtx "" "application/json").search = "" then []
              else [Clause.search ["system_platform.display_name"]
                (sampleCtx "" "application/json").search]) ++ filters)
          orders := keys ++ ["system_platform.inventory_id ASC"] } :=
  (systems_export_query_is_base_ordered_by_id staleAwareDb
    (sampleCtx "" "application/json")).2.2.2.2.2
    (Paginate (ApplySort (ApplyFilters (querySystems "acme")
      [Clause.filter "system_platform.stale" { Operator := "eq", Values := ["false"] }])
      ["system_platform.last_upload DESC"] SystemOpts.Fields) 20 0) (by decide)

/-! ## Systems list: content negotiation -/

/-- C7, counterexample: a systems list request with the Accept header `text/xml` is answered
with status 200 and the JSON envelope holding the fetched system, not with 415. -/
theorem systems_list_answers_text_xml_with_200 :
    responses (SystemsListHandler (sampleDb 1 [sampleSystem]) (sampleCtx "" "text/xml")) =
      [{ status := 200
         body := Body.json (Payload.list
           { Data := buildData [sampleSystem]
             Links := BuildLinks "/api/patch/v1/systems" (BuildMeta 1 20 0)
             Meta := BuildMeta 1 20 0 }) }] := by
  decide

/-- A successful `ListCommon` writes no response. -/
theorem ListCommon_some_responses (db : Database) (tx : Query) (c : Ctx) (path : String)
    (opts : ListOpts) (ev : List Event) (res : Query × ListMeta × Links)
    (h : ListCommon db tx c path opts = (ev, some res)) : responses ev = [] := by
  rcases ListCommon_cases db tx c path opts with ⟨e, h'⟩ | ⟨f, e, _, h'⟩ |
    ⟨f, k, l, o, t, _, _, _, _, h'⟩ <;> rw [h'] at h <;> simp at h
  rw [← h.1]
  simp

/-- A failing `ListCommon` writes one response, with status 400 or 500. -/
theorem ListCommon_none_responses (db : Database) (tx : Query) (c : Ctx) (path : String)
    (opts : ListOpts) (ev : List Event) (h : ListCommon db tx c path opts = (ev, none)) :
    ∃ r, responses ev = [r] ∧ (r.status = 400 ∨ r.status = 500) := by
  rcases ListCommon_cases db tx c path opts with ⟨e, h'⟩ | ⟨f, e, _, h'⟩ |
    ⟨f, k, l, o, t, _, _, _, _, h'⟩ <;> rw [h'] at h <;> simp at h
  · rw [← h]
    exact ⟨{ status := 400, body := Body.json (Payload.error { Error := e }) }, by simp,
      Or.inl rfl⟩
  · rw [← h]
    exact ⟨{ status := 500, body := Body.json (Payload.error { Error := "database error" }) },
      by simp, Or.inr rfl⟩

/-- C7, amended: `SystemsListHandler` does not negotiate the content type: its log is the
same whatever the request headers, the Accept header included. It writes exactly one
response: status 200 with the JSON envelope when `ListCommon` and `Find` succeed, status 500
when `Find` fails, and the response of `ListCommon`, status 400 or 500, when `ListCommon`
fails; never 415. -/
theorem systems_list_ignores_accept (db : Database) (c : Ctx) :
    (∀ hdr, SystemsListHandler db { c with Header := hdr } = SystemsListHandler db c) ∧
    (∀ (ev : List Event) (q : Query) (m : ListMeta) (links : Links)
        (systems : List SystemDBLookup),
      ListCommon db
        (ApplySearch c (querySystems c.GetStringAccount) ["system_platform.display_name"])
        c "/api/patch/v1/systems" SystemOpts = (ev, some (q, m, links)) →
      db.find q = Except.ok systems →
      responses (SystemsListHandler db c) =
        [{ status := 200
           body := Body.json (Payload.list
             { Data := buildData systems, Links := links, Meta := m }) }]) ∧
    (∀ (ev : List Event) (q : Query) (m : ListMeta) (links : Links) (e : String),
      ListCommon db
        (ApplySearch c (querySystems c.GetStringAccount) ["system_platform.display_name"])
        c "/api/patch/v1/systems" SystemOpts = (ev, some (q, m, links)) →
      db.find q = Except.error e →
      responses (SystemsListHandler db c) =
        [{ status := 500, body := Body.json (Payload.error { Error := "db error" }) }]) ∧
    (∀ ev : List Event,
      ListCommon db
        (ApplySearch c (querySystems c.GetStringAccount) ["system_platform.display_name"])
        c "/api/patch/v1/systems" SystemOpts = (ev, none) →
      responses (SystemsListHandler db c) = responses ev ∧
      ∃ r, responses ev = [r] ∧ (r.status = 400 ∨ r.status = 500)) := by
  refine ⟨fun _ => rfl, ?_, ?_, ?_⟩
  · intro ev q m links systems hlc hfind
    have hev := ListCommon_some_responses _ _ _ _ _ ev _ hlc
    simp [SystemsListHandler, hlc, hfind, hev]
  · intro ev q m links e hlc hfind
    have hev := ListCommon_some_responses _ _ _ _ _ ev _ hlc
    simp [SystemsListHandler, hlc, hfind, hev]
  · intro ev hlc
    refine ⟨?_, ListCommon_none_responses _ _ _ _ _ ev hlc⟩
    simp [SystemsListHandler, hlc]

/-- Witness of the amended C7: with the Accept header `text/xml`, a successful request is
answered with 200 and the envelope, a request whose `Find` fails with 500, and a request
sorted by an unknown field with the 400 response of `ListCommon`. -/
theorem systems_list_ignores_accept_witness :
    responses (SystemsListHandler (sampleDb 1 [sampleSystem]) (sampleCtx "" "text/xml")) =
      [{ status := 200
         body := Body.json (Payload.list
           { Data := buildData [sampleSystem]
             Links := BuildLinks "/api/patch/v1/systems" (BuildMeta 1 20 0)
             Meta := BuildMeta 1 20 0 }) }] ∧
    responses (SystemsListHandler failingFindDb (sampleCtx "" "text/xml")) =
      [{ status := 500, body := Body.json (Payload.error { Error := "db error" }) }] ∧
    responses (SystemsListHandler (sampleDb 1 [sampleSystem])
        { sampleCtx "" "text/xml" with sort := "color" }) =
      responses [LogAndRespBadRequest "UnknownSortField: color" "UnknownSortField: color"] :=
  ⟨(systems_list_ignores_accept (sampleDb 1 [sampleSystem]) (sampleCtx "" "text/xml")).2.1
      [Event.execCount (ApplyFilters (querySystems "acme")
        [Clause.filter "system_platform.stale" { Operator := "eq", Values := ["false"] }])]
      (Paginate (ApplySort (ApplyFilters (querySystems "acme")
        [Clause.filter "system_platform.stale" { Operator := "eq", Values := ["false"] }])
        ["system_platform.last_upload DESC"] SystemOpts.Fields) 20 0)
      (BuildMeta 1 20 0) (BuildLinks "/api/patch/v1/systems" (BuildMeta 1 20 0))
      [sampleSystem] (by decide) rfl,
   (systems_list_ignores_accept failingFindDb (sampleCtx "" "text/xml")).2.2.1
      [Event.execCount (ApplyFilters (querySystems "acme")
        [Clause.filter "system_platform.stale" { Operator := "eq", Values := ["false"] }])]
      (Paginate (ApplySort (ApplyFilters (querySystems "acme")
        [Clause.filter "system_platform.stale" { Operator := "eq", Values := ["false"] }])
        ["system_platform.last_upload DESC"] SystemOpts.Fields) 20 0)
      (BuildMeta 1 20 0) (BuildLinks "/api/patch/v1/systems" (BuildMeta 1 20 0))
      "connection refused" (by decide) rfl,
   ((systems_list_ignores_accept (sampleDb 1 [sampleSystem])
      { sampleCtx "" "text/xml" with sort := "color" }).2.2.2
      [LogAndRespBadRequest "UnknownSortField: color" "UnknownSortField: color"]
      (by decide)).1⟩

/-! ## Tenant scope -/

@[simp] theorem executed_nil : executed [] = [] := rfl

@[simp] theorem executed_respond (r : Response) (es : List Event) :
    executed (Event.respond r :: es) = executed es := rfl

@[simp] theorem executed_stage (n : String) (es : List Event) :
    executed (Event.stage n :: es) = executed es := rfl

@[simp] theorem executed_execCount (q : Query) (es : List Event) :
    executed (Event.execCount q :: es) = q :: executed es := rfl

@[simp] theorem executed_execFind (q : Query) (es : List Event) :
    executed (Event.execFind q :: es) = q :: executed es := rfl

@[simp] theorem executed_JSON (status : Nat) (p : Payload) (es : List Event) :
    executed (JSON status p :: es) = executed es := rfl

@[simp] theorem executed_Csv (status : Nat) (p : Payload) (es : List Event) :
    executed (Csv status p :: es) = executed es := rfl

@[simp] theorem executed_LogAndRespStatusError (st : Nat) (e m : String) (es : List Event) :
    executed (LogAndRespStatusError st e m :: es) = executed es := rfl

@[simp] theorem executed_LogAndRespError (e m : String) (es : List Event) :
    executed (LogAndRespError e m :: es) = executed es := rfl

@[simp] theorem executed_LogAndRespBadRequest (e m : String) (es : List Event) :
    executed (LogAndRespBadRequest e m :: es) = executed es := rfl

theorem derivedFrom_refl (q : Query) : derivedFrom q q :=
  ⟨rfl, rfl, rfl, List.prefix_rfl⟩

theorem derivedFrom_ApplySearch (base q : Query) (c : Ctx) (fields : List String)
    (h : derivedFrom base q) : derivedFrom base (ApplySearch c q fields) := by
  rw [ApplySearch_eq]
  exact ⟨h.1, h.2.1, h.2.2.1, h.2.2.2.trans (List.prefix_append _ _)⟩

theorem derivedFrom_ApplyFilters (base q : Query) (filters : List Clause)
    (h : derivedFrom base q) : derivedFrom base (ApplyFilters q filters) := by
  rw [ApplyFilters_eq]
  exact ⟨h.1, h.2.1, h.2.2.1, h.2.2.2.trans (List.prefix_append _ _)⟩

theorem derivedFrom_ApplySort (base q : Query) (keys : List String)
    (registry : List FieldDescriptor) (h : derivedFrom base q) :
    derivedFrom base (ApplySort q keys registry) := by
  rw [ApplySort_eq]
  exact h

theorem derivedFrom_Order (base q : Query) (key : String)
    (h : derivedFrom base q) : derivedFrom base (q.Order key) :=
  h

theorem derivedFrom_Paginate (base q : Query) (limit offset : Int)
    (h : derivedFrom base q) : derivedFrom base (Paginate q limit offset) := by
  unfold Paginate
  split
  · exact h
  · exact h

theorem tenantScoped_of_derivedFrom (account : String) (q : Query)
    (h : derivedFrom (querySystems account) q) : tenantScoped account q := by
  obtain ⟨_, _, hj, hw⟩ := h
  constructor
  · rw [hj]; simp [querySystems, Query.Where, Query.Joins, Query.Select, Query.Table]
  · exact hw.subset (by simp [querySystems, Query.Where, Query.Joins, Query.Select, Query.Table])

/-- C8: every query executed by `SystemsListHandler` and `SystemsExportHandler`, count or
data query, is derived from `querySystems(account)` for the account read from the request
context, and so inner-joins `rh_account` and carries the predicate `ra.name = account`; the
queries handed to the later steps (search, `ListCommon`, `Order`) carry it as well. -/
theorem systems_queries_tenant_scoped (db : Database) (c : Ctx) :
    tenantScoped c.GetStringAccount (querySystems c.GetStringAccount) ∧
    tenantScoped c.GetStringAccount
      (ApplySearch c (querySystems c.GetStringAccount) ["system_platform.display_name"]) ∧
    tenantScoped c.GetStringAccount ((querySystems c.GetStringAccount).Order "id") ∧
    (∀ q ∈ executed (SystemsListHandler db c),
      derivedFrom (querySystems c.GetStringAccount) q ∧ tenantScoped c.GetStringAccount q) ∧
    (∀ q ∈ executed (SystemsExportHandler db c),
      derivedFrom (querySystems c.GetStringAccount) q ∧ tenantScoped c.GetStringAccount q) := by
  have hbase := derivedFrom_refl (querySystems c.GetStringAccount)
  have hsearch := derivedFrom_ApplySearch _ _ c ["system_platform.display_name"] hbase
  have hcount := fun filters => derivedFrom_ApplyFilters _ _ filters hsearch
  have hfind := fun filters keys limit offset =>
    derivedFrom_Paginate _ _ limit offset
      (derivedFrom_ApplySort _ _ keys SystemOpts.Fields (hcount filters))
  have hexp := derivedFrom_Order _ _ "id" hbase
  refine ⟨tenantScoped_of_derivedFrom _ _ hbase, tenantScoped_of_derivedFrom _ _ hsearch,
    tenantScoped_of_derivedFrom _ _ hexp, ?_, ?_⟩
  · intro q hq
    have hd : derivedFrom (querySystems c.GetStringAccount) q := by
      rcases SystemsListHandler_cases db c with ⟨e, hl⟩ | ⟨filters, e, hl⟩ |
        ⟨filters, keys, limit, offset, total, _, ⟨e, hl⟩ | ⟨systems, _, hl⟩⟩ <;>
        rw [hl] at hq <;> simp at hq
      · subst hq; exact hcount filters
      · rcases hq with hq | hq <;> subst hq
        · exact hcount filters
        · exact hfind filters keys limit offset
      · rcases hq with hq | hq <;> subst hq
        · exact hcount filters
        · exact hfind filters keys limit offset
    exact ⟨hd, tenantScoped_of_derivedFrom _ _ hd⟩
  · intro q hq
    have hd : derivedFrom (querySystems c.GetStringAccount) q := by
      cases hf : db.find ((querySystems c.GetStringAccount).Order "id") with
      | error e =>
        simp [SystemsExportHandler, hf] at hq
        subst hq; exact hexp
      | ok rows =>
        rw [SystemsExportHandler_fetched db c rows hf] at hq
        have hq' : q = (querySystems c.GetStringAccount).Order "id" := by
          revert hq
          split <;> [skip; split] <;> simp
        subst hq'; exact hexp
    exact ⟨hd, tenantScoped_of_derivedFrom _ _ hd⟩

/-- Witness of C8: the data query of a systems list request of account `acme`, and the data
query of a systems export request. -/
theorem systems_queries_tenant_scoped_witness :
    (derivedFrom (querySystems "acme")
        (Paginate (ApplySort (ApplyFilters (querySystems "acme")
          [Clause.filter "system_platform.stale" { Operator := "eq", Values := ["false"] }])
          ["system_platform.last_upload DESC"] SystemOpts.Fields) 20 0) ∧
      tenantScoped "acme"
        (Paginate (ApplySort (ApplyFilters (querySystems "acme")
          [Clause.filter "system_platform.stale" { Operator := "eq", Values := ["false"] }])
          ["system_platform.last_upload DESC"] SystemOpts.Fields) 20 0)) ∧
    (derivedFrom (querySystems "acme") ((querySystems "acme").Order "id") ∧
      tenantScoped "acme" ((querySystems "acme").Order "id")) :=
  ⟨(systems_queries_tenant_scoped (sampleDb 1 [sampleSystem])
      (sampleCtx "" "application/json")).2.2.2.1
      (Paginate (ApplySort (ApplyFilters (querySystems "acme")
        [Clause.filter "system_platform.stale" { Operator := "eq", Values := ["false"] }])
        ["system_platform.last_upload DESC"] SystemOpts.Fields) 20 0) (by decide),
   (systems_queries_tenant_scoped (sampleDb 1 [sampleSystem])
      (sampleCtx "" "application/json")).2.2.2.2
      ((querySystems "acme").Order "id") (by decide)⟩

/-! ## Systems list: the response envelope -/

/-- C9: `buildData` returns one item per fetched system, in the same order, whose ID and
attributes are those of the system and whose type is `system`; and when `ListCommon` and
`Find` succeed, `SystemsListHandler` writes one response, status 200, whose payload is the
envelope of `buildData` of the fetched systems with the links and the meta returned by
`ListCommon`. -/
theorem buildData_items_and_envelope (db : Database) (c : Ctx) (systems : List SystemDBLookup) :
    (buildData systems).length = systems.length ∧
    (∀ i : Nat, (buildData systems)[i]? =
      (systems[i]?).map fun system =>
        { Attributes := system.SystemItemAttributes, ID := system.ID, Type_ := "system" }) ∧
    (∀ (ev : List Event) (q : Query) (m : ListMeta) (links : Links),
      ListCommon db
        (ApplySearch c (querySystems c.GetStringAccount) ["system_platform.display_name"])
        c "/api/patch/v1/systems" SystemOpts = (ev, some (q, m, links)) →
      db.find q = Except.ok systems →
      responses (SystemsListHandler db c) =
        [{ status := 200
           body := Body.json (Payload.list
             { Data := buildData systems, Links := links, Meta := m }) }]) := by
  refine ⟨by simp [buildData], fun i => by simp [buildData], ?_⟩
  intro ev q m links hlc hfind
  have hev : responses ev = [] := by
    rcases ListCommon_cases db
      (ApplySearch c (querySystems c.GetStringAccount) ["system_platform.display_name"])
      c "/api/patch/v1/systems" SystemOpts with ⟨e, h⟩ | ⟨f, e, _, h⟩ |
      ⟨f, k, l, o, t, _, _, _, _, h⟩ <;> rw [h] at hlc <;> simp at hlc
    rw [← hlc.1]
    simp
  simp [SystemsListHandler, hlc, hfind, hev]

/-- Witness of C9: a systems list request fetching one system. -/
theorem buildData_items_and_envelope_witness :
    responses (SystemsListHandler (sampleDb 1 [sampleSystem])
        (sampleCtx "" "application/json")) =
      [{ status := 200
         body := Body.json (Payload.list
           { Data := buildData [sampleSystem]
             Links := BuildLinks "/api/patch/v1/systems" (BuildMeta 1 20 0)
             Meta := BuildMeta 1 20 0 }) }] :=
  (buildData_items_and_envelope (sampleDb 1 [sampleSystem]) (sampleCtx "" "application/json")
    [sampleSystem]).2.2
    [Event.execCount (ApplyFilters (querySystems "acme")
      [Clause.filter "system_platform.stale" { Operator := "eq", Values := ["false"] }])]
    (Paginate (ApplySort (ApplyFilters (querySystems "acme")
      [Clause.filter "system_platform.stale" { Operator := "eq", Values := ["false"] }])
      ["system_platform.last_upload DESC"] SystemOpts.Fields) 20 0)
    (BuildMeta 1 20 0) (BuildLinks "/api/patch/v1/systems" (BuildMeta 1 20 0))
    (by decide) rfl

/-! ## base.RemoveInvalidChars -/

theorem decodeRune_encodeRune (r : Nat) (rest : List Nat) (h : isScalar r) :
    decodeRune (encodeRune r ++ rest) = (r, (encodeRune r).length) := by
  unfold isScalar at h
  unfold encodeRune
  by_cases h1 : r < 0x80
  · simp [h1, decodeRune]
  by_cases h2 : r < 0x800
  · simp only [h1, h2, if_false, if_true, List.cons_append, List.nil_append, decodeRune]
    have a1 : ¬ (0xC0 + r / 64 < 0x80) := by omega
    have a2 : ¬ (0xC0 + r / 64 < 0xC2 ∨ 0xF4 < 0xC0 + r / 64) := by omega
    have a3 : 0xC0 + r / 64 < 0xE0 := by omega
    have a4 : ¬ (0x80 + r % 64 < 0x80 ∨ 0xBF < 0x80 + r % 64) := by omega
    simp only [a1, a2, a3, a4, if_false, if_true, List.length_cons, List.length_nil]
    ext
    · simp only []; omega
    · simp
  have h3 : ¬ (0x10FFFF < r ∨ (0xD800 ≤ r ∧ r ≤ 0xDFFF)) := by omega
  by_cases h4 : r < 0x10000
  · simp only [h1, h2, h3, h4, if_false, if_true, List.cons_append, List.nil_append, decodeRune]
    have a1 : ¬ (0xE0 + r / 4096 < 0x80) := by omega
    have a2 : ¬ (0xE0 + r / 4096 < 0xC2 ∨ 0xF4 < 0xE0 + r / 4096) := by omega
    have a3 : ¬ (0xE0 + r / 4096 < 0xE0) := by omega
    have a4 : 0xE0 + r / 4096 < 0xF0 := by omega
    have a5 : ¬ (0x80 + r / 64 % 64 < (if 0xE0 + r / 4096 = 0xE0 then 0xA0 else 0x80) ∨
        (if 0xE0 + r / 4096 = 0xED then 0x9F else 0xBF) < 0x80 + r / 64 % 64) := by
      split <;> split <;> omega
    have a6 : ¬ (0x80 + r % 64 < 0x80 ∨ 0xBF < 0x80 + r % 64) := by omega
    simp only [a1, a2, a3, a4, a5, a6, if_false, if_true, List.length_cons, List.length_nil]
    ext
    · simp only []; omega
    · simp
  · simp only [h1, h2, h3, h4, if_false, if_true, List.cons_append, List.nil_append, decodeRune]
    have a1 : ¬ (0xF0 + r / 262144 < 0x80) := by omega
    have a2 : ¬ (0xF0 + r / 262144 < 0xC2 ∨ 0xF4 < 0xF0 + r / 262144) := by omega
    have a3 : ¬ (0xF0 + r / 262144 < 0xE0) := by omega
    have a4 : ¬ (0xF0 + r / 262144 < 0xF0) := by omega
    have a5 : ¬ (0x80 + r / 4096 % 64 < (if 0xF0 + r / 262144 = 0xF0 then 0x90 else 0x80) ∨
        (if 0xF0 + r / 262144 = 0xF4 then 0x8F else 0xBF) < 0x80 + r / 4096 % 64) := by
      split <;> split <;> omega
    have a6 : ¬ (0x80 + r / 64 % 64 < 0x80 ∨ 0xBF < 0x80 + r / 64 % 64) := by omega
    have a7 : ¬ (0x80 + r % 64 < 0x80 ∨ 0xBF < 0x80 + r % 64) := by omega
    simp only [a1, a2, a3, a4, a5, a6, a7, if_false, if_true, List.length_cons,
      List.length_nil]
    ext
    · simp only []; omega
    · simp

theorem encodeRune_length_pos (r : Nat) : 0 < (encodeRune r).length := by
  unfold encodeRune
  split <;> [skip; split <;> [skip; split <;> [skip; split]]] <;> simp

theorem encodeRune_ne_nil (r : Nat) : encodeRune r ≠ [] := by
  intro h
  have := encodeRune_length_pos r
  rw [h] at this
  exact absurd this (by simp)

theorem rangeRunes_encodeString (rs : List Nat) (hs : ∀ r ∈ rs, isScalar r) (fuel : Nat)
    (hfuel : (encodeString rs).length ≤ fuel) :
    rangeRunes fuel (encodeString rs) = rs := by
  induction rs generalizing fuel with
  | nil =>
    cases fuel <;> simp [encodeString, rangeRunes]
  | cons r rs ih =>
    have hr : isScalar r := hs r (List.mem_cons_self _ _)
    have hpos := encodeRune_length_pos r
    simp only [encodeString, List.length_append] at hfuel
    cases fuel with
    | zero => omega
    | succ fuel =>
      simp only [encodeString]
      obtain ⟨b, bs, hb⟩ := List.exists_cons_of_ne_nil (encodeRune_ne_nil r)
      have hdec := decodeRune_encodeRune r (encodeString rs) hr
      rw [hb] at hdec
      simp only [List.cons_append] at hdec
      rw [hb]
      show rangeRunes (fuel + 1) (b :: (bs ++ encodeString rs)) = r :: rs
      rw [rangeRunes, hdec]
      have hdrop : List.drop (b :: bs).length (b :: (bs ++ encodeString rs)) = encodeString rs := by
        rw [← List.cons_append, List.drop_left]
      simp only [hdrop]
      rw [ih (fun x hx => hs x (List.mem_cons_of_mem _ hx)) fuel
        (by rw [hb] at hfuel; simp at hfuel; omega)]

theorem runes_encodeString (rs : List Nat) (hs : ∀ r ∈ rs, isScalar r) :
    runes (encodeString rs) = rs :=
  rangeRunes_encodeString rs hs _ (le_refl _)

theorem decodeRune_isScalar (s : List Nat) : isScalar (decodeRune s).1 := by
  unfold isScalar
  rcases s with _ | ⟨s0, _ | ⟨s1, _ | ⟨s2, _ | ⟨s3, tl⟩⟩⟩⟩ <;>
    simp only [decodeRune] <;> (try split_ifs) <;> simp only [RuneError] <;> omega


theorem runes_isScalar_aux (fuel : Nat) (s : List Nat) : ∀ r ∈ rangeRunes fuel s, isScalar r := by
  induction fuel generalizing s with
  | zero => intro r hr; simp [rangeRunes] at hr
  | succ fuel ih =>
    cases s with
    | nil => intro r hr; simp [rangeRunes] at hr
    | cons s0 rest =>
      intro r hr
      rw [rangeRunes] at hr
      rcases List.mem_cons.mp hr with h | h
      · rw [h]; exact decodeRune_isScalar _
      · exact ih _ r h

theorem runes_isScalar (s : List Nat) : ∀ r ∈ runes s, isScalar r :=
  runes_isScalar_aux _ s

theorem zero_mem_encodeRune (r : Nat) : 0 ∈ encodeRune r ↔ r = 0 := by
  unfold encodeRune
  split_ifs <;> simp <;> omega

theorem zero_mem_encodeString (rs : List Nat) : 0 ∈ encodeString rs ↔ 0 ∈ rs := by
  induction rs with
  | nil => simp [encodeString]
  | cons r rs ih =>
    simp only [encodeString, List.mem_append, zero_mem_encodeRune, ih, List.mem_cons]
    constructor
    · rintro (h | h)
      · exact Or.inl h.symm
      · exact Or.inr h
    · rintro (h | h)
      · exact Or.inl h.symm
      · exact Or.inr h

theorem stringsMap_remove (s : List Nat) :
    stringsMap remove s = encodeString ((runes s).filter fun r => decide (r ≠ 0)) := by
  unfold stringsMap
  congr 1
  induction runes s with
  | nil => rfl
  | cons r rs ih =>
    rw [List.filterMap_cons, List.filter_cons, ih]
    by_cases hr : r = 0
    · subst hr; simp [remove]
    · have h2 : ¬ ((r : Int) < 0) := by omega
      simp [remove, hr, h2]

/-- C10, counterexample: the string of the single byte `0xFF` contains no NUL, yet
`RemoveInvalidChars` does not return it unchanged: the invalid byte is rewritten to the
three bytes of U+FFFD. -/
theorem RemoveInvalidChars_rewrites_invalid_byte :
    0 ∉ [0xFF] ∧ RemoveInvalidChars [0xFF] = [0xEF, 0xBF, 0xBD] ∧
      RemoveInvalidChars [0xFF] ≠ [0xFF] := by
  decide

/-- C10, amended: for every string `s`, `RemoveInvalidChars(s)` is the UTF-8 encoding of the
runes of `s` as Go decodes them (a byte outside a valid encoding decodes to U+FFFD), with
every NUL deleted and every other rune kept in order; the result contains no NUL and
applying the function twice is the same as applying it once. For every valid UTF-8 string,
the encoding of scalar values `rs`, the result is the string with every NUL character
deleted and every other character kept, hence the string itself when it contains no NUL. -/
theorem RemoveInvalidChars_deletes_nul (s rs : List Nat) :
    RemoveInvalidChars s = encodeString ((runes s).filter fun r => decide (r ≠ 0)) ∧
    0 ∉ RemoveInvalidChars s ∧
    RemoveInvalidChars (RemoveInvalidChars s) = RemoveInvalidChars s ∧
    ((∀ r ∈ rs, isScalar r) →
      RemoveInvalidChars (encodeString rs) =
        encodeString (rs.filter fun r => decide (r ≠ 0)) ∧
      (0 ∉ encodeString rs → RemoveInvalidChars (encodeString rs) = encodeString rs)) := by
  have hfilter : ∀ l : List Nat, (∀ r ∈ l, isScalar r) →
      ∀ r ∈ l.filter (fun r => decide (r ≠ 0)), isScalar r :=
    fun l hl r hr => hl r (List.mem_of_mem_filter hr)
  have hvalid : ∀ l : List Nat, (∀ r ∈ l, isScalar r) →
      RemoveInvalidChars (encodeString l) =
        encodeString (l.filter fun r => decide (r ≠ 0)) := by
    intro l hl
    unfold RemoveInvalidChars
    rw [stringsMap_remove, runes_encodeString l hl]
  have h1 : RemoveInvalidChars s =
      encodeString ((runes s).filter fun r => decide (r ≠ 0)) := stringsMap_remove s
  refine ⟨h1, ?_, ?_, ?_⟩
  · rw [h1, zero_mem_encodeString]
    simp [List.mem_filter]
  · rw [h1, hvalid _ (hfilter _ (runes_isScalar s))]
    simp
  · intro hrs
    refine ⟨hvalid rs hrs, fun h0 => ?_⟩
    rw [hvalid rs hrs, List.filter_eq_self.mpr]
    intro r hr
    have : r ≠ 0 := fun h => h0 ((zero_mem_encodeString rs).mpr (h ▸ hr))
    simpa using this

/-- Witness of the amended C10: in the valid string of `a`, NUL, `é`, `b` the NUL is
deleted and the other characters, the two-byte `é` included, are kept; the valid string
`host` without NUL is returned unchanged. -/
theorem RemoveInvalidChars_deletes_nul_witness :
    RemoveInvalidChars [0x61, 0x00, 0xC3, 0xA9, 0x62] = [0x61, 0xC3, 0xA9, 0x62] ∧
    RemoveInvalidChars [0x68, 0x6F, 0x73, 0x74] = [0x68, 0x6F, 0x73, 0x74] :=
  ⟨((RemoveInvalidChars_deletes_nul [] [0x61, 0x00, 0xE9, 0x62]).2.2.2 (by decide)).1,
   ((RemoveInvalidChars_deletes_nul [] [0x68, 0x6F, 0x73, 0x74]).2.2.2 (by decide)).2
     (by decide)⟩

/-! ## Template systems update: unassigning with a nil template -/

/-- With a nil template, `templateArchVersionMatch` panics as soon as the systems query
yields a row. -/
theorem templateArchVersionMatch_nil_panics (env : TemplateEnv) (inventoryIDs : List String)
    (acc : Int) (groups : List (String × String)) (sys : SysArchVersion)
    (rest : List SysArchVersion)
    (hrows : env.findSysArchVersions acc groups inventoryIDs = Except.ok (sys :: rest)) :
    templateArchVersionMatch env inventoryIDs none acc groups =
      Run.panic "invalid memory address or nil pointer dereference" := by
  simp [templateArchVersionMatch, hrows, archVersionLoop]

/-- With a nil template, existing IDs and a systems query that yields a row,
`assignTemplateSystems` panics before the update. -/
theorem assignTemplateSystems_nil_panics (env : TemplateEnv) (accountID : Int)
    (inventoryIDs : List String) (groups : List (String × String))
    (satellite : List String) (sys : SysArchVersion) (rest : List SysArchVersion)
    (hids : inventoryIDs ≠ [])
    (hcheck : env.checkInventoryIDs accountID inventoryIDs groups = ([], satellite, none))
    (hsat : env.EnableSatelliteFunctionality = false ∨ satellite = [])
    (hrows : env.findSysArchVersions accountID groups inventoryIDs = Except.ok (sys :: rest)) :
    assignTemplateSystems env accountID none inventoryIDs groups =
      ([TxEvent.begin, TxEvent.rollback],
        Run.panic "invalid memory address or nil pointer dereference") := by
  have hlen : inventoryIDs.length ≠ 0 := by
    simpa [List.length_eq_zero] using hids
  have hs : ¬ (env.EnableSatelliteFunctionality = true ∧ satellite.length > 0) := by
    rcases hsat with h | h
    · simp [h]
    · simp [h]
  unfold assignTemplateSystems
  simp only [hlen, if_false, hcheck, hs, List.length_nil, gt_iff_lt, lt_self_iff_false,
    templateArchVersionMatch_nil_panics env inventoryIDs accountID groups sys rest hrows]

/-- C11, at the failing input: called with a nil template and one inventory ID that exists
in the account and is not satellite managed, `assignTemplateSystems` ends in a nil-pointer
panic inside the arch/version check, after `Begin` and before any update; called with a
template whose ID is 0 and whose arch and version are empty, it fails the arch/version
check with a 400 response and executes no update either. -/
theorem assignTemplateSystems_unassign_fails :
    assignTemplateSystems (sampleTemplateEnv [] [] [sampleSysRow]) 7 none
        ["id-1"] [] =
      ([TxEvent.begin, TxEvent.rollback],
        Run.panic "invalid memory address or nil pointer dereference") ∧
    (assignTemplateSystems (sampleTemplateEnv [] [] [sampleSysRow]) 7
        (some { ID := 0, Arch := "", Version := "" }) ["id-1"] []).1 =
      [TxEvent.begin,
       TxEvent.respond
         { status := 400
           body := Body.json (Payload.error
             { Error := "Incompatible template and system version or architecture: " ++
                 "template arch: , version: \nsystem uuid: id-1, arch: x86_64, version: 8" }) },
       TxEvent.rollback] := by
  constructor
  · rfl
  · decide

/-! ## Template systems update: the error returned after an error response -/

/-- When `checkInventoryIDs` succeeds but reports satellite managed IDs (with the satellite
functionality enabled) or missing IDs, `assignTemplateSystems` writes one error response,
400 or 404, and returns the nil error of `checkInventoryIDs`. -/
theorem assignTemplateSystems_returns_nil_after_response (env : TemplateEnv)
    (accountID : Int) (template : Option Template) (inventoryIDs : List String)
    (groups : List (String × String)) (missing satellite : List String)
    (hids : inventoryIDs ≠ [])
    (hcheck : env.checkInventoryIDs accountID inventoryIDs groups = (missing, satellite, none))
    (hbad : (env.EnableSatelliteFunctionality = true ∧ satellite ≠ []) ∨ missing ≠ []) :
    (assignTemplateSystems env accountID template inventoryIDs groups).2 = Run.done none ∧
    ∃ r, txResponses (assignTemplateSystems env accountID template inventoryIDs groups).1 = [r] ∧
      (r.status = 400 ∨ r.status = 404) := by
  have hlen : inventoryIDs.length ≠ 0 := by
    simpa [List.length_eq_zero] using hids
  unfold assignTemplateSystems
  simp only [hlen, if_false, hcheck]
  by_cases hs : env.EnableSatelliteFunctionality = true ∧ satellite.length > 0
  · simp only [hs, and_self, if_true, true_and]
    exact ⟨_, rfl, Or.inl rfl⟩
  · have hm : missing.length > 0 := by
      rcases hbad with ⟨h1, h2⟩ | h
      · exact absurd ⟨h1, List.length_pos.mpr h2⟩ hs
      · exact List.length_pos.mpr h
    simp only [hs, if_false, hm, if_true, true_and]
    exact ⟨_, rfl, Or.inr rfl⟩

/-- C12, at the failing inputs: for a request naming an unknown inventory ID,
`assignTemplateSystems` writes the 404 response and returns nil, and
`TemplateSystemsUpdateHandler` goes on to call `c.Status(200)`; likewise after the 400
response for a satellite managed ID. -/
theorem template_update_status_200_after_error_response :
    assignTemplateSystems (sampleTemplateEnv ["id-9"] [] []) 7 (some sampleTemplate)
        ["id-9"] [] =
      ([TxEvent.begin,
        TxEvent.respond
          { status := 404
            body := Body.json (Payload.error { Error := "Unknown inventory_ids: [id-9]" }) },
        TxEvent.rollback], Run.done none) ∧
    (TemplateSystemsUpdateHandler (sampleTemplateEnv ["id-9"] [] [])
        (sampleTemplateRequest ["id-9"])).1 =
      [TxEvent.begin,
       TxEvent.respond
         { status := 404
           body := Body.json (Payload.error { Error := "Unknown inventory_ids: [id-9]" }) },
       TxEvent.rollback, TxEvent.status 200] ∧
    (TemplateSystemsUpdateHandler (sampleTemplateEnv [] ["id-1"] sampleSysRows)
        (sampleTemplateRequest ["id-1"])).1 =
      [TxEvent.begin,
       TxEvent.respond
         { status := 400
           body := Body.json (Payload.error
             { Error := "Template can not contain satellite managed systems: [id-1]" }) },
       TxEvent.rollback, TxEvent.status 200] := by
  refine ⟨rfl, by decide, by decide⟩

/-! ## templateArchVersionMatch -/

theorem joinLines_cons_of_ne_nil (a : String) (l : List String) (h : l ≠ []) :
    joinLines (a :: l) = a ++ "\n" ++ joinLines l := by
  cases l with
  | nil => exact absurd rfl h
  | cons b rest => rfl

theorem GoError_Error_join_pair (a b : GoError) :
    (GoError.join [a, b]).Error = a.Error ++ "\n" ++ b.Error := by
  simp [GoError.Error, GoError.ErrorList, joinLines]

theorem GoError_Error_join_single (a : GoError) : (GoError.join [a]).Error = a.Error := by
  simp [GoError.Error, GoError.ErrorList, joinLines]

/-- The loop of `templateArchVersionMatch` with a template: it returns, with the error
accumulated so far if no remaining row mismatches, else with an error whose message is the
message accumulated so far followed by one line per mismatching row, in order. -/
theorem archVersionLoop_some (t : Template) (rows : List SysArchVersion)
    (err : Option GoError) :
    ∃ res, archVersionLoop (some t) rows err = Run.done res ∧
      ((rows.filter fun sys => decide (sys.Version ≠ t.Version ∨ sys.Arch ≠ t.Arch)) = [] →
        res = err) ∧
      ((rows.filter fun sys => decide (sys.Version ≠ t.Version ∨ sys.Arch ≠ t.Arch)) ≠ [] →
        ∃ e, res = some e ∧
          e.Error =
            match err with
            | none => joinLines ((rows.filter fun sys =>
                decide (sys.Version ≠ t.Version ∨ sys.Arch ≠ t.Arch)).map systemErrMsg)
            | some e0 => e0.Error ++ "\n" ++ joinLines ((rows.filter fun sys =>
                decide (sys.Version ≠ t.Version ∨ sys.Arch ≠ t.Arch)).map systemErrMsg)) := by
  induction rows generalizing err with
  | nil => exact ⟨err, rfl, fun _ => rfl, fun h => absurd rfl h⟩
  | cons sys rest ih =>
    by_cases hm : sys.Version ≠ t.Version ∨ sys.Arch ≠ t.Arch
    · obtain ⟨res, hres, hnil, hcons⟩ :=
        ih (Join [err, some (GoError.msg (systemErrMsg sys))])
      refine ⟨res, ?_, ?_, ?_⟩
      · simp only [archVersionLoop, hm, if_true]
        exact hres
      · intro h
        simp [List.filter_cons, hm] at h
      · intro _
        simp only [List.filter_cons, hm, decide_True, if_true, List.map_cons]
        by_cases hrest :
            (rest.filter fun sys => decide (sys.Version ≠ t.Version ∨ sys.Arch ≠ t.Arch)) = []
        · have hr := hnil hrest
          rw [hrest]
          cases err with
          | none =>
            refine ⟨GoError.join [GoError.msg (systemErrMsg sys)], by simpa [Join] using hr, ?_⟩
            simp [GoError_Error_join_single, GoError.Error, joinLines]
          | some e0 =>
            refine ⟨GoError.join [e0, GoError.msg (systemErrMsg sys)],
              by simpa [Join] using hr, ?_⟩
            simp [GoError_Error_join_pair, GoError.Error, joinLines]
        · obtain ⟨e, he, hmsg⟩ := hcons hrest
          refine ⟨e, he, ?_⟩
          have hne : ((rest.filter fun sys =>
              decide (sys.Version ≠ t.Version ∨ sys.Arch ≠ t.Arch)).map systemErrMsg) ≠ [] := by
            simpa using hrest
          rw [joinLines_cons_of_ne_nil _ _ hne]
          cases err with
          | none =>
            simp only [Join, List.filterMap_cons, id, List.filterMap_nil] at hmsg
            rw [hmsg, GoError_Error_join_single]
            simp [GoError.Error]
          | some e0 =>
            simp only [Join, List.filterMap_cons, id, List.filterMap_nil] at hmsg
            rw [hmsg, GoError_Error_join_pair]
            simp [GoError.Error, String.append_assoc]
    · obtain ⟨res, hres, hnil, hcons⟩ := ih err
      refine ⟨res, ?_, ?_, ?_⟩
      · simp only [archVersionLoop, hm, if_false]
        exact hres
      · intro h
        apply hnil
        simpa [List.filter_cons, hm] using h
      · intro h
        have h' : (rest.filter fun sys =>
            decide (sys.Version ≠ t.Version ∨ sys.Arch ≠ t.Arch)) ≠ [] := by
          simpa [List.filter_cons, hm] using h
        obtain ⟨e, he, hmsg⟩ := hcons h'
        refine ⟨e, he, ?_⟩
        simp only [List.filter_cons, hm, decide_False, Bool.false_eq_true, if_false]
        exact hmsg

/-- C13: for a non-nil template and rows returned by the systems query without a database
error, `templateArchVersionMatch` returns; it returns nil if and only if every row has the
version and the arch of the template; otherwise it returns an error whose message is the
line `template arch: <arch>, version: <version>` followed by one line
`system uuid: <id>, arch: <arch>, version: <version>` per mismatching row, in the order of
the query result, and none for a matching row. -/
theorem templateArchVersionMatch_spec (env : TemplateEnv) (inventoryIDs : List String)
    (t : Template) (acc : Int) (groups : List (String × String))
    (rows : List SysArchVersion)
    (hrows : env.findSysArchVersions acc groups inventoryIDs = Except.ok rows) :
    (templateArchVersionMatch env inventoryIDs (some t) acc groups = Run.done none ↔
      ∀ sys ∈ rows, sys.Version = t.Version ∧ sys.Arch = t.Arch) ∧
    ((¬ ∀ sys ∈ rows, sys.Version = t.Version ∧ sys.Arch = t.Arch) →
      ∃ e, templateArchVersionMatch env inventoryIDs (some t) acc groups =
          Run.done (some e) ∧
        e.Error = joinLines (templateErrMsg t ::
          (rows.filter fun sys =>
            decide (sys.Version ≠ t.Version ∨ sys.Arch ≠ t.Arch)).map systemErrMsg)) := by
  have hall : (∀ sys ∈ rows, sys.Version = t.Version ∧ sys.Arch = t.Arch) ↔
      (rows.filter fun sys => decide (sys.Version ≠ t.Version ∨ sys.Arch ≠ t.Arch)) = [] := by
    rw [List.filter_eq_nil_iff]
    constructor
    · intro h sys hs
      have := h sys hs
      simp [this.1, this.2]
    · intro h sys hs
      have := h sys hs
      simp only [decide_eq_true_eq, not_or, not_not] at this
      exact this
  obtain ⟨res, hres, hnil, hcons⟩ := archVersionLoop_some t rows none
  by_cases hf : (rows.filter fun sys =>
      decide (sys.Version ≠ t.Version ∨ sys.Arch ≠ t.Arch)) = []
  · have hr := hnil hf
    subst hr
    have hrun : templateArchVersionMatch env inventoryIDs (some t) acc groups = Run.done none := by
      simp [templateArchVersionMatch, hrows, hres]
    exact ⟨⟨fun _ => hall.mpr hf, fun _ => hrun⟩, fun hn => absurd (hall.mpr hf) hn⟩
  · obtain ⟨e, he, hmsg⟩ := hcons hf
    subst he
    have hrun : templateArchVersionMatch env inventoryIDs (some t) acc groups =
        Run.done (some (GoError.join [GoError.msg (templateErrMsg t), e])) := by
      simp [templateArchVersionMatch, hrows, hres, Join]
    have hne : ((rows.filter fun sys =>
        decide (sys.Version ≠ t.Version ∨ sys.Arch ≠ t.Arch)).map systemErrMsg) ≠ [] := by
      simpa using hf
    refine ⟨⟨fun h => ?_, fun h => absurd (hall.mp h) hf⟩, fun _ => ⟨_, hrun, ?_⟩⟩
    · rw [hrun] at h
      simp at h
    · rw [GoError_Error_join_pair, joinLines_cons_of_ne_nil _ _ hne]
      simp only [] at hmsg
      rw [hmsg]
      simp [GoError.Error]

/-- Witness of C13: of three systems, the second and the third mismatch `sampleTemplate`;
the error lists the template and these two, in order. -/
theorem templateArchVersionMatch_spec_witness :
    ∃ e, templateArchVersionMatch (sampleTemplateEnv [] [] sampleSysRows)
          ["id-1", "id-2", "id-3"] (some sampleTemplate) 7 [] = Run.done (some e) ∧
      e.Error = joinLines (templateErrMsg sampleTemplate ::
        (sampleSysRows.filter fun sys =>
          decide (sys.Version ≠ sampleTemplate.Version ∨
            sys.Arch ≠ sampleTemplate.Arch)).map systemErrMsg) :=
  (templateArchVersionMatch_spec (sampleTemplateEnv [] [] sampleSysRows)
    ["id-1", "id-2", "id-3"] sampleTemplate 7 [] sampleSysRows rfl).2 (by decide)

/-- The message of the witness of C13, spelled out. -/
theorem templateArchVersionMatch_sample_message :
    joinLines (templateErrMsg sampleTemplate ::
        (sampleSysRows.filter fun sys =>
          decide (sys.Version ≠ sampleTemplate.Version ∨
            sys.Arch ≠ sampleTemplate.Arch)).map systemErrMsg) =
      "template arch: x86_64, version: 8\n" ++
        "system uuid: id-2, arch: aarch64, version: 8\n" ++
        "system uuid: id-3, arch: x86_64, version: 9" := by
  decide

end Patchman
